import Mathlib

/-!
# Event generator configuration: loading, defaulting and validation

A shallow embedding of `src/autoscaler/eventgenerator/config/config.go`.

* Go `int`, `int64` and `time.Duration` values are modelled as `Int`; the code only
  compares them with constants, so no overflow is involved.
* Go `error` results of `Validate` are modelled as `Except String Unit`, the string
  being the message given to `fmt.Errorf`.
* `yaml.Unmarshal` and the Unicode case tables behind `strings.ToLower` are not part of
  the repository; they enter `LoadConfig` as parameters.
* `LoadConfig` passes the address of the pointer `conf` to the deserializer, so the pointer
  may come back nil; its result is a `LoadResult`: a configuration, an error, or a nil
  dereference.
-/

namespace EventGenerator

/-! ## Durations (Go package `time`) -/

/-- One second as a `time.Duration`, counted in nanoseconds. -/
def Second : Int := 1000000000

/-- One minute as a `time.Duration`. -/
def Minute : Int := 60 * Second

/-- One hour as a `time.Duration`. -/
def Hour : Int := 60 * Minute

/-! ## Default constants (config.go, lines 15-30) -/

def DefaultLoggingLevel : String := "info"
def DefaultServerPort : Int := 8080
def DefaultPolicyPollerInterval : Int := 40 * Second
def DefaultAggregatorExecuteInterval : Int := 40 * Second
def DefaultSaveInterval : Int := 5 * Second
def DefaultMetricPollerCount : Int := 20
def DefaultAppMonitorChannelSize : Int := 200
def DefaultAppMetricChannelSize : Int := 200
def DefaultEvaluationExecuteInterval : Int := 40 * Second
def DefaultEvaluatorCount : Int := 20
def DefaultTriggerArrayChannelSize : Int := 200
def DefaultBackOffInitialInterval : Int := 5 * Minute
def DefaultBackOffMaxInterval : Int := 2 * Hour
def DefaultBreakerConsecutiveFailureCount : Int := 3

/-! ## Schema (config.go, lines 32-85) -/

/-- Modelled from the spec: `models.TLSCerts` is declared outside this file; the
configuration carries it as opaque TLS material, here the list of its file names. -/
structure TLSCerts where
  Material : List String
deriving DecidableEq, Repr

/-- Modelled from the spec: `db.DatabaseConfig` is declared outside this file; it has a
connection URL, which `Validate` reads, and opaque pool parameters. -/
structure DatabaseConfig where
  Url : String
  PoolParams : List Int
deriving DecidableEq, Repr

/-- Modelled from the spec: `helpers.LoggingConfig` is declared outside this file; the
only field used here is the logging level. -/
structure LoggingConfig where
  Level : String
deriving DecidableEq, Repr

structure ServerConfig where
  Port : Int
  TLS : TLSCerts
  NodeAddrs : List String
  NodeIndex : Int
deriving DecidableEq, Repr

structure DBConfig where
  PolicyDB : DatabaseConfig
  AppMetricDB : DatabaseConfig
deriving DecidableEq, Repr

structure AggregatorConfig where
  MetricPollerCount : Int
  AppMonitorChannelSize : Int
  AppMetricChannelSize : Int
  AggregatorExecuteInterval : Int
  PolicyPollerInterval : Int
  SaveInterval : Int
deriving DecidableEq, Repr

structure EvaluatorConfig where
  EvaluatorCount : Int
  TriggerArrayChannelSize : Int
  EvaluationManagerInterval : Int
deriving DecidableEq, Repr

structure ScalingEngineConfig where
  ScalingEngineUrl : String
  TLSClientCerts : TLSCerts
deriving DecidableEq, Repr

structure MetricCollectorConfig where
  MetricCollectorUrl : String
  TLSClientCerts : TLSCerts
deriving DecidableEq, Repr

structure CircuitBreakerConfig where
  BackOffInitialInterval : Int
  BackOffMaxInterval : Int
  ConsecutiveFailureCount : Int
deriving DecidableEq, Repr

structure Config where
  Logging : LoggingConfig
  Server : ServerConfig
  DB : DBConfig
  Aggregator : AggregatorConfig
  Evaluator : EvaluatorConfig
  ScalingEngine : ScalingEngineConfig
  MetricCollector : MetricCollectorConfig
  DefaultStatWindowSecs : Int
  DefaultBreachDurationSecs : Int
  CircuitBreaker : CircuitBreakerConfig
deriving DecidableEq, Repr

/-! ## Validate (config.go, lines 127-179) -/

/-- The method `(c *Config) Validate() error`: sixteen guarded returns in sequence, then
`return nil`. `Except.ok ()` stands for the nil error. -/
def Validate (c : Config) : Except String Unit :=
  if c.DB.PolicyDB.Url = "" then
    .error "Configuration error: Policy DB url is empty"
  else if c.DB.AppMetricDB.Url = "" then
    .error "Configuration error: AppMetric DB url is empty"
  else if c.ScalingEngine.ScalingEngineUrl = "" then
    .error "Configuration error: Scaling engine url is empty"
  else if c.MetricCollector.MetricCollectorUrl = "" then
    .error "Configuration error: Metric collector url is empty"
  else if c.Aggregator.AggregatorExecuteInterval ≤ 0 then
    .error "Configuration error: aggregator execute interval is less-equal than 0"
  else if c.Aggregator.PolicyPollerInterval ≤ 0 then
    .error "Configuration error: policy poller interval is less-equal than 0"
  else if c.Aggregator.SaveInterval ≤ 0 then
    .error "Configuration error: save interval is less-equal than 0"
  else if c.Aggregator.MetricPollerCount ≤ 0 then
    .error "Configuration error: metric poller count is less-equal than 0"
  else if c.Aggregator.AppMonitorChannelSize ≤ 0 then
    .error "Configuration error: appMonitor channel size is less-equal than 0"
  else if c.Aggregator.AppMetricChannelSize ≤ 0 then
    .error "Configuration error: appMetric channel size is less-equal than 0"
  else if c.Evaluator.EvaluationManagerInterval ≤ 0 then
    .error "Configuration error: evalution manager execeute interval is less-equal than 0"
  else if c.Evaluator.EvaluatorCount ≤ 0 then
    .error "Configuration error: evaluator count is less-equal than 0"
  else if c.Evaluator.TriggerArrayChannelSize ≤ 0 then
    .error "Configuration error: trigger-array channel size is less-equal than 0"
  else if c.DefaultBreachDurationSecs < 60 ∨ c.DefaultBreachDurationSecs > 3600 then
    .error "Configuration error: defaultBreachDurationSecs should be between 60 and 3600"
  else if c.DefaultStatWindowSecs < 60 ∨ c.DefaultStatWindowSecs > 3600 then
    .error "Configuration error: defaultStatWindowSecs should be between 60 and 3600"
  else if c.Server.NodeIndex ≥ (c.Server.NodeAddrs.length : Int) ∨ c.Server.NodeIndex < 0 then
    .error "Configuration error: node_index out of range"
  else
    .ok ()

/-! ## The ordered rule list of the specification (section 4.2) -/

/-- The rule list as the specification words it: `specRuleHolds i c` says that rule
`i + 1` of the ordered list holds of `c` (rules are numbered from 1 in the text, from 0
here). Indices past the list hold vacuously. -/
def specRuleHolds (i : Nat) (c : Config) : Bool :=
  match i with
  | 0 => decide (c.DB.PolicyDB.Url ≠ "")
  | 1 => decide (c.DB.AppMetricDB.Url ≠ "")
  | 2 => decide (c.ScalingEngine.ScalingEngineUrl ≠ "")
  | 3 => decide (c.MetricCollector.MetricCollectorUrl ≠ "")
  | 4 => decide (0 < c.Aggregator.AggregatorExecuteInterval)
  | 5 => decide (0 < c.Aggregator.PolicyPollerInterval)
  | 6 => decide (0 < c.Aggregator.SaveInterval)
  | 7 => decide (0 < c.Aggregator.MetricPollerCount)
  | 8 => decide (0 < c.Aggregator.AppMonitorChannelSize)
  | 9 => decide (0 < c.Aggregator.AppMetricChannelSize)
  | 10 => decide (0 < c.Evaluator.EvaluationManagerInterval)
  | 11 => decide (0 < c.Evaluator.EvaluatorCount)
  | 12 => decide (0 < c.Evaluator.TriggerArrayChannelSize)
  | 13 => decide (60 ≤ c.DefaultBreachDurationSecs ∧ c.DefaultBreachDurationSecs ≤ 3600)
  | 14 => decide (60 ≤ c.DefaultStatWindowSecs ∧ c.DefaultStatWindowSecs ≤ 3600)
  | 15 => decide (0 ≤ c.Server.NodeIndex ∧ c.Server.NodeIndex < (c.Server.NodeAddrs.length : Int))
  | _ => true

/-- The fixed message of rule `i + 1`, as passed to `fmt.Errorf` in `Validate`. -/
def ruleMessage (i : Nat) : String :=
  match i with
  | 0 => "Configuration error: Policy DB url is empty"
  | 1 => "Configuration error: AppMetric DB url is empty"
  | 2 => "Configuration error: Scaling engine url is empty"
  | 3 => "Configuration error: Metric collector url is empty"
  | 4 => "Configuration error: aggregator execute interval is less-equal than 0"
  | 5 => "Configuration error: policy poller interval is less-equal than 0"
  | 6 => "Configuration error: save interval is less-equal than 0"
  | 7 => "Configuration error: metric poller count is less-equal than 0"
  | 8 => "Configuration error: appMonitor channel size is less-equal than 0"
  | 9 => "Configuration error: appMetric channel size is less-equal than 0"
  | 10 => "Configuration error: evalution manager execeute interval is less-equal than 0"
  | 11 => "Configuration error: evaluator count is less-equal than 0"
  | 12 => "Configuration error: trigger-array channel size is less-equal than 0"
  | 13 => "Configuration error: defaultBreachDurationSecs should be between 60 and 3600"
  | 14 => "Configuration error: defaultStatWindowSecs should be between 60 and 3600"
  | 15 => "Configuration error: node_index out of range"
  | _ => ""

/-! ## Lower-casing (Go packages `strings` and `unicode`) -/

/-- The test `'A' <= r && r <= 'Z'` of `unicode.ToLower`. -/
def isUpperASCII (r : Char) : Bool :=
  decide (65 ≤ r.toNat ∧ r.toNat ≤ 90)

/-- The function `unicode.ToLower`: a rune up to `MaxASCII` is lower-cased by arithmetic
(`r += 'a' - 'A'` for `'A' <= r <= 'Z'`); for the other runes the library consults its
case tables, which are not part of the repository and enter as `caseTable`. -/
def unicodeToLower (caseTable : Char → Char) (r : Char) : Char :=
  if r.toNat ≤ 127 then
    if isUpperASCII r then Char.ofNat (r.toNat + 32) else r
  else caseTable r

/-- The function `strings.ToLower`: every rune of the string mapped by `unicode.ToLower`. -/
def ToLower (caseTable : Char → Char) (s : String) : String :=
  String.mk (s.data.map (unicodeToLower caseTable))

/-! ## LoadConfig (config.go, lines 87-125) -/

/-- The zero value of `models.TLSCerts`. -/
def TLSCerts.zero : TLSCerts := ⟨[]⟩

/-- The zero value of `db.DatabaseConfig`. -/
def DatabaseConfig.zero : DatabaseConfig := ⟨"", []⟩

/-- The composite literal of lines 88-108: logging level, server port and all Aggregator
and Evaluator fields carry their defaults, every other field its Go zero value. -/
def preSeeded : Config where
  Logging := ⟨DefaultLoggingLevel⟩
  Server := { Port := DefaultServerPort, TLS := TLSCerts.zero, NodeAddrs := [], NodeIndex := 0 }
  DB := ⟨DatabaseConfig.zero, DatabaseConfig.zero⟩
  Aggregator :=
    { AggregatorExecuteInterval := DefaultAggregatorExecuteInterval
      PolicyPollerInterval := DefaultPolicyPollerInterval
      SaveInterval := DefaultSaveInterval
      MetricPollerCount := DefaultMetricPollerCount
      AppMonitorChannelSize := DefaultAppMonitorChannelSize
      AppMetricChannelSize := DefaultAppMetricChannelSize }
  Evaluator :=
    { EvaluationManagerInterval := DefaultEvaluationExecuteInterval
      EvaluatorCount := DefaultEvaluatorCount
      TriggerArrayChannelSize := DefaultTriggerArrayChannelSize }
  ScalingEngine := ⟨"", TLSCerts.zero⟩
  MetricCollector := ⟨"", TLSCerts.zero⟩
  DefaultStatWindowSecs := 0
  DefaultBreachDurationSecs := 0
  CircuitBreaker := ⟨0, 0, 0⟩

/-- Lines 114-123 of `LoadConfig`, the statements after a successful `yaml.Unmarshal`: the
logging level is lower-cased, then each CircuitBreaker field that equals zero is set to
its default. -/
def postFill (caseTable : Char → Char) (conf : Config) : Config :=
  let conf :=
    { conf with Logging := { conf.Logging with Level := ToLower caseTable conf.Logging.Level } }
  let conf :=
    if conf.CircuitBreaker.ConsecutiveFailureCount = 0 then
      { conf with CircuitBreaker :=
          { conf.CircuitBreaker with ConsecutiveFailureCount := DefaultBreakerConsecutiveFailureCount } }
    else conf
  let conf :=
    if conf.CircuitBreaker.BackOffInitialInterval = 0 then
      { conf with CircuitBreaker :=
          { conf.CircuitBreaker with BackOffInitialInterval := DefaultBackOffInitialInterval } }
    else conf
  if conf.CircuitBreaker.BackOffMaxInterval = 0 then
    { conf with CircuitBreaker :=
        { conf.CircuitBreaker with BackOffMaxInterval := DefaultBackOffMaxInterval } }
  else conf

/-- What a call of `LoadConfig` does: it returns `(conf, nil)`, or returns `(nil, err)`,
or does not return because line 114 dereferences a nil pointer. -/
inductive LoadResult (ε : Type) where
  | ok (conf : Config)
  | error (err : ε)
  | nilDereference
deriving Repr

/-- The function `LoadConfig`. The deserializer `yaml.Unmarshal` is outside the repository
and enters as `unmarshal`. Line 109 hands it the bytes and `&conf`, the address of the
pointer to the pre-seeded configuration, so the deserializer can fill in the structure and
can also reset the pointer: `unmarshal bytes preSeeded` is its error, or else the value of
`conf` after the call, `none` for nil and `some c` for a pointer to `c`. On an error line
111 returns `(nil, err)`; otherwise lines 114-123 go through `conf`, which is a nil
dereference when the pointer was reset, and line 124 returns `(conf, nil)`. -/
def LoadConfig {ε : Type} (caseTable : Char → Char)
    (unmarshal : List UInt8 → Config → Except ε (Option Config)) (bytes : List UInt8) :
    LoadResult ε :=
  match unmarshal bytes preSeeded with
  | .error err => .error err
  | .ok none => .nilDereference
  | .ok (some conf) => .ok (postFill caseTable conf)

/-! ## The deserializer as the specification describes it (sections 4.1 and 6) -/

/-- Modelled from the spec: the content of a parsed document in which every key that
occurs has a value, listed by leaf key of section 6: `none` when the key does not occur,
`some v` when the document supplies the value `v`. Documents with null values and the
null document are covered by `YamlDocument` below. -/
structure Document where
  level : Option String
  port : Option Int
  tls : Option TLSCerts
  node_addrs : Option (List String)
  node_index : Option Int
  policy_db : Option DatabaseConfig
  app_metrics_db : Option DatabaseConfig
  metric_poller_count : Option Int
  app_monitor_channel_size : Option Int
  app_metric_channel_size : Option Int
  aggregator_execute_interval : Option Int
  policy_poller_interval : Option Int
  save_interval : Option Int
  evaluator_count : Option Int
  trigger_array_channel_size : Option Int
  evaluation_manager_execute_interval : Option Int
  scaling_engine_url : Option String
  scaling_engine_tls : Option TLSCerts
  metric_collector_url : Option String
  metric_collector_tls : Option TLSCerts
  defaultStatWindowSecs : Option Int
  defaultBreachDurationSecs : Option Int
  back_off_initial_interval : Option Int
  back_off_max_interval : Option Int
  consecutive_failure_count : Option Int
deriving DecidableEq, Repr

/-- The document without any key. -/
def Document.empty : Document :=
  ⟨none, none, none, none, none, none, none, none, none, none, none, none, none, none, none,
    none, none, none, none, none, none, none, none, none, none⟩

/-- Modelled from the spec: deserializing a document into a configuration. A key present
in the document overwrites the corresponding field; an absent key leaves the field
untouched. -/
def Document.applyTo (d : Document) (conf : Config) : Config where
  Logging := ⟨d.level.getD conf.Logging.Level⟩
  Server :=
    { Port := d.port.getD conf.Server.Port
      TLS := d.tls.getD conf.Server.TLS
      NodeAddrs := d.node_addrs.getD conf.Server.NodeAddrs
      NodeIndex := d.node_index.getD conf.Server.NodeIndex }
  DB :=
    { PolicyDB := d.policy_db.getD conf.DB.PolicyDB
      AppMetricDB := d.app_metrics_db.getD conf.DB.AppMetricDB }
  Aggregator :=
    { MetricPollerCount := d.metric_poller_count.getD conf.Aggregator.MetricPollerCount
      AppMonitorChannelSize := d.app_monitor_channel_size.getD conf.Aggregator.AppMonitorChannelSize
      AppMetricChannelSize := d.app_metric_channel_size.getD conf.Aggregator.AppMetricChannelSize
      AggregatorExecuteInterval :=
        d.aggregator_execute_interval.getD conf.Aggregator.AggregatorExecuteInterval
      PolicyPollerInterval := d.policy_poller_interval.getD conf.Aggregator.PolicyPollerInterval
      SaveInterval := d.save_interval.getD conf.Aggregator.SaveInterval }
  Evaluator :=
    { EvaluatorCount := d.evaluator_count.getD conf.Evaluator.EvaluatorCount
      TriggerArrayChannelSize :=
        d.trigger_array_channel_size.getD conf.Evaluator.TriggerArrayChannelSize
      EvaluationManagerInterval :=
        d.evaluation_manager_execute_interval.getD conf.Evaluator.EvaluationManagerInterval }
  ScalingEngine :=
    { ScalingEngineUrl := d.scaling_engine_url.getD conf.ScalingEngine.ScalingEngineUrl
      TLSClientCerts := d.scaling_engine_tls.getD conf.ScalingEngine.TLSClientCerts }
  MetricCollector :=
    { MetricCollectorUrl := d.metric_collector_url.getD conf.MetricCollector.MetricCollectorUrl
      TLSClientCerts := d.metric_collector_tls.getD conf.MetricCollector.TLSClientCerts }
  DefaultStatWindowSecs := d.defaultStatWindowSecs.getD conf.DefaultStatWindowSecs
  DefaultBreachDurationSecs := d.defaultBreachDurationSecs.getD conf.DefaultBreachDurationSecs
  CircuitBreaker :=
    { BackOffInitialInterval :=
        d.back_off_initial_interval.getD conf.CircuitBreaker.BackOffInitialInterval
      BackOffMaxInterval := d.back_off_max_interval.getD conf.CircuitBreaker.BackOffMaxInterval
      ConsecutiveFailureCount :=
        d.consecutive_failure_count.getD conf.CircuitBreaker.ConsecutiveFailureCount }

/-- Modelled from the spec: the deserializer. The bytes are parsed into a document, which
fails with a parse error or yields the keys the document supplies (`parse`, the YAML
grammar, is a parameter); the document is then applied to the pre-seeded configuration. -/
def unmarshalDocument {ε : Type} (parse : List UInt8 → Except ε Document) :
    List UInt8 → Config → Except ε (Option Config) :=
  fun bytes conf =>
    match parse bytes with
    | .error err => .error err
    | .ok d => .ok (some (d.applyTo conf))

/-! ## Documents with null values -/

/-- What a mapping of the document says about one of its keys: the key does not occur, it
occurs with a null value (`key:` or `key: ~`), or it occurs with a value. -/
inductive Entry (α : Type) where
  | absent
  | null
  | value (v : α)
deriving DecidableEq, Repr

/-- Modelled from the spec: deserializing one key into a field. An absent key leaves the
field untouched and a value overwrites it (section 4.1, step 2); a null value sets the
field to the zero value of its type, as the YAML deserializer does. -/
def Entry.assign {α : Type} (e : Entry α) (zero old : α) : α :=
  match e with
  | .absent => old
  | .null => zero
  | .value v => v

/-- Modelled from the spec: deserializing a key whose value is a nested mapping into a
structure-valued field. An absent key leaves the structure untouched, a null value sets it
to its zero value, and a mapping is deserialized into the structure key by key. -/
def Entry.assignNested {κ σ : Type} (e : Entry κ) (apply : κ → σ → σ) (zero old : σ) : σ :=
  match e with
  | .absent => old
  | .null => zero
  | .value keys => apply keys old

structure LoggingKeys where
  level : Entry String
deriving DecidableEq, Repr

structure ServerKeys where
  port : Entry Int
  tls : Entry TLSCerts
  node_addrs : Entry (List String)
  node_index : Entry Int
deriving DecidableEq, Repr

structure DatabaseKeys where
  url : Entry String
  pool : Entry (List Int)
deriving DecidableEq, Repr

structure DBKeys where
  policy_db : Entry DatabaseKeys
  app_metrics_db : Entry DatabaseKeys
deriving DecidableEq, Repr

structure AggregatorKeys where
  metric_poller_count : Entry Int
  app_monitor_channel_size : Entry Int
  app_metric_channel_size : Entry Int
  aggregator_execute_interval : Entry Int
  policy_poller_interval : Entry Int
  save_interval : Entry Int
deriving DecidableEq, Repr

structure EvaluatorKeys where
  evaluator_count : Entry Int
  trigger_array_channel_size : Entry Int
  evaluation_manager_execute_interval : Entry Int
deriving DecidableEq, Repr

structure ScalingEngineKeys where
  scaling_engine_url : Entry String
  tls : Entry TLSCerts
deriving DecidableEq, Repr

structure MetricCollectorKeys where
  metric_collector_url : Entry String
  tls : Entry TLSCerts
deriving DecidableEq, Repr

structure CircuitBreakerKeys where
  back_off_initial_interval : Entry Int
  back_off_max_interval : Entry Int
  consecutive_failure_count : Entry Int
deriving DecidableEq, Repr

/-- The top-level mapping of a document, with the keys of section 6. -/
structure YamlKeys where
  logging : Entry LoggingKeys
  server : Entry ServerKeys
  db : Entry DBKeys
  aggregator : Entry AggregatorKeys
  evaluator : Entry EvaluatorKeys
  scalingEngine : Entry ScalingEngineKeys
  metricCollector : Entry MetricCollectorKeys
  defaultStatWindowSecs : Entry Int
  defaultBreachDurationSecs : Entry Int
  circuitBreaker : Entry CircuitBreakerKeys
deriving DecidableEq, Repr

/-- Modelled from the spec: a parsed document, which the external deserializer builds from
the bytes. It has no content (empty bytes, comments only), or its content is null (`null`,
`~`, a bare `---`), or its content is a mapping. A document of another shape or with a
mistyped value is a parse error and has no representation here. -/
inductive YamlDocument where
  | empty
  | null
  | mapping (keys : YamlKeys)
deriving DecidableEq, Repr

/-- The zero value of `ServerConfig`. -/
def ServerConfig.zero : ServerConfig := ⟨0, TLSCerts.zero, [], 0⟩

/-- The zero value of `DBConfig`. -/
def DBConfig.zero : DBConfig := ⟨DatabaseConfig.zero, DatabaseConfig.zero⟩

/-- The zero value of `AggregatorConfig`. -/
def AggregatorConfig.zero : AggregatorConfig := ⟨0, 0, 0, 0, 0, 0⟩

/-- The zero value of `EvaluatorConfig`. -/
def EvaluatorConfig.zero : EvaluatorConfig := ⟨0, 0, 0⟩

/-- The zero value of `CircuitBreakerConfig`. -/
def CircuitBreakerConfig.zero : CircuitBreakerConfig := ⟨0, 0, 0⟩

def LoggingKeys.applyTo (k : LoggingKeys) (old : LoggingConfig) : LoggingConfig :=
  { Level := k.level.assign "" old.Level }

def ServerKeys.applyTo (k : ServerKeys) (old : ServerConfig) : ServerConfig :=
  { Port := k.port.assign 0 old.Port
    TLS := k.tls.assign TLSCerts.zero old.TLS
    NodeAddrs := k.node_addrs.assign [] old.NodeAddrs
    NodeIndex := k.node_index.assign 0 old.NodeIndex }

def DatabaseKeys.applyTo (k : DatabaseKeys) (old : DatabaseConfig) : DatabaseConfig :=
  { Url := k.url.assign "" old.Url
    PoolParams := k.pool.assign [] old.PoolParams }

def DBKeys.applyTo (k : DBKeys) (old : DBConfig) : DBConfig :=
  { PolicyDB := k.policy_db.assignNested DatabaseKeys.applyTo DatabaseConfig.zero old.PolicyDB
    AppMetricDB :=
      k.app_metrics_db.assignNested DatabaseKeys.applyTo DatabaseConfig.zero old.AppMetricDB }

def AggregatorKeys.applyTo (k : AggregatorKeys) (old : AggregatorConfig) : AggregatorConfig :=
  { MetricPollerCount := k.metric_poller_count.assign 0 old.MetricPollerCount
    AppMonitorChannelSize := k.app_monitor_channel_size.assign 0 old.AppMonitorChannelSize
    AppMetricChannelSize := k.app_metric_channel_size.assign 0 old.AppMetricChannelSize
    AggregatorExecuteInterval :=
      k.aggregator_execute_interval.assign 0 old.AggregatorExecuteInterval
    PolicyPollerInterval := k.policy_poller_interval.assign 0 old.PolicyPollerInterval
    SaveInterval := k.save_interval.assign 0 old.SaveInterval }

def EvaluatorKeys.applyTo (k : EvaluatorKeys) (old : EvaluatorConfig) : EvaluatorConfig :=
  { EvaluatorCount := k.evaluator_count.assign 0 old.EvaluatorCount
    TriggerArrayChannelSize := k.trigger_array_channel_size.assign 0 old.TriggerArrayChannelSize
    EvaluationManagerInterval :=
      k.evaluation_manager_execute_interval.assign 0 old.EvaluationManagerInterval }

def ScalingEngineKeys.applyTo (k : ScalingEngineKeys) (old : ScalingEngineConfig) :
    ScalingEngineConfig :=
  { ScalingEngineUrl := k.scaling_engine_url.assign "" old.ScalingEngineUrl
    TLSClientCerts := k.tls.assign TLSCerts.zero old.TLSClientCerts }

def MetricCollectorKeys.applyTo (k : MetricCollectorKeys) (old : MetricCollectorConfig) :
    MetricCollectorConfig :=
  { MetricCollectorUrl := k.metric_collector_url.assign "" old.MetricCollectorUrl
    TLSClientCerts := k.tls.assign TLSCerts.zero old.TLSClientCerts }

def CircuitBreakerKeys.applyTo (k : CircuitBreakerKeys) (old : CircuitBreakerConfig) :
    CircuitBreakerConfig :=
  { BackOffInitialInterval := k.back_off_initial_interval.assign 0 old.BackOffInitialInterval
    BackOffMaxInterval := k.back_off_max_interval.assign 0 old.BackOffMaxInterval
    ConsecutiveFailureCount :=
      k.consecutive_failure_count.assign 0 old.ConsecutiveFailureCount }

/-- Modelled from the spec: deserializing the top-level mapping into a configuration,
section by section. -/
def YamlKeys.applyTo (k : YamlKeys) (conf : Config) : Config where
  Logging := k.logging.assignNested LoggingKeys.applyTo ⟨""⟩ conf.Logging
  Server := k.server.assignNested ServerKeys.applyTo ServerConfig.zero conf.Server
  DB := k.db.assignNested DBKeys.applyTo DBConfig.zero conf.DB
  Aggregator :=
    k.aggregator.assignNested AggregatorKeys.applyTo AggregatorConfig.zero conf.Aggregator
  Evaluator := k.evaluator.assignNested EvaluatorKeys.applyTo EvaluatorConfig.zero conf.Evaluator
  ScalingEngine :=
    k.scalingEngine.assignNested ScalingEngineKeys.applyTo ⟨"", TLSCerts.zero⟩ conf.ScalingEngine
  MetricCollector :=
    k.metricCollector.assignNested MetricCollectorKeys.applyTo ⟨"", TLSCerts.zero⟩
      conf.MetricCollector
  DefaultStatWindowSecs := k.defaultStatWindowSecs.assign 0 conf.DefaultStatWindowSecs
  DefaultBreachDurationSecs :=
    k.defaultBreachDurationSecs.assign 0 conf.DefaultBreachDurationSecs
  CircuitBreaker :=
    k.circuitBreaker.assignNested CircuitBreakerKeys.applyTo CircuitBreakerConfig.zero
      conf.CircuitBreaker

/-- Modelled from the spec: the deserializer called with the address of the pointer to a
configuration; the result is the pointer after the call. A document without content
touches nothing, a mapping is deserialized into the configuration, and a null document
resets the pointer to nil. -/
def YamlDocument.applyTo (d : YamlDocument) (conf : Config) : Option Config :=
  match d with
  | .empty => some conf
  | .null => none
  | .mapping keys => some (keys.applyTo conf)

/-- Modelled from the spec: the deserializer on documents that may hold null values. The
bytes are parsed (`parse`, the YAML grammar, is a parameter), which fails with a parse
error or yields a document; the document is then deserialized through the pointer. -/
def unmarshalYaml {ε : Type} (parse : List UInt8 → Except ε YamlDocument) :
    List UInt8 → Config → Except ε (Option Config) :=
  fun bytes conf =>
    match parse bytes with
    | .error err => .error err
    | .ok d => .ok (d.applyTo conf)

/-- The mapping without any key. -/
def YamlKeys.none : YamlKeys :=
  ⟨.absent, .absent, .absent, .absent, .absent, .absent, .absent, .absent, .absent, .absent⟩

/-- The top-level mapping of a document; a document without content has no key. -/
def YamlDocument.keys (d : YamlDocument) : YamlKeys :=
  match d with
  | .mapping keys => keys
  | _ => YamlKeys.none

/-- What a document says about a leaf key of a section: the key is left out with its
section absent or a mapping (`omitted`), the key is left out because the whole section
is present with a null value (`nullSection`), the key occurs with a null value, or the
key occurs with a value. In the first two cases the document omits the key. -/
inductive Found (α : Type) where
  | omitted
  | nullSection
  | null
  | value (v : α)
deriving DecidableEq, Repr

/-- Looks a leaf key up in a section of the document. -/
def Entry.find {κ α : Type} (sec : Entry κ) (leaf : κ → Entry α) : Found α :=
  match sec with
  | .absent => .omitted
  | .null => .nullSection
  | .value keys =>
    match leaf keys with
    | .absent => .omitted
    | .null => .null
    | .value v => .value v

/-- A key that either does not occur or occurs with a value. -/
def Entry.ofOption {α : Type} (o : Option α) : Entry α :=
  match o with
  | some v => .value v
  | none => .absent

/-- A database key that either does not occur or occurs with a URL and pool parameters. -/
def DatabaseKeys.ofOption (o : Option DatabaseConfig) : Entry DatabaseKeys :=
  match o with
  | some db => .value { url := .value db.Url, pool := .value db.PoolParams }
  | none => .absent

/-- The top-level mapping of a document in which every key that occurs has a value: every
section is a mapping. -/
def Document.toKeys (d : Document) : YamlKeys where
  logging := .value { level := Entry.ofOption d.level }
  server :=
    .value
      { port := Entry.ofOption d.port
        tls := Entry.ofOption d.tls
        node_addrs := Entry.ofOption d.node_addrs
        node_index := Entry.ofOption d.node_index }
  db :=
    .value
      { policy_db := DatabaseKeys.ofOption d.policy_db
        app_metrics_db := DatabaseKeys.ofOption d.app_metrics_db }
  aggregator :=
    .value
      { metric_poller_count := Entry.ofOption d.metric_poller_count
        app_monitor_channel_size := Entry.ofOption d.app_monitor_channel_size
        app_metric_channel_size := Entry.ofOption d.app_metric_channel_size
        aggregator_execute_interval := Entry.ofOption d.aggregator_execute_interval
        policy_poller_interval := Entry.ofOption d.policy_poller_interval
        save_interval := Entry.ofOption d.save_interval }
  evaluator :=
    .value
      { evaluator_count := Entry.ofOption d.evaluator_count
        trigger_array_channel_size := Entry.ofOption d.trigger_array_channel_size
        evaluation_manager_execute_interval :=
          Entry.ofOption d.evaluation_manager_execute_interval }
  scalingEngine :=
    .value
      { scaling_engine_url := Entry.ofOption d.scaling_engine_url
        tls := Entry.ofOption d.scaling_engine_tls }
  metricCollector :=
    .value
      { metric_collector_url := Entry.ofOption d.metric_collector_url
        tls := Entry.ofOption d.metric_collector_tls }
  defaultStatWindowSecs := Entry.ofOption d.defaultStatWindowSecs
  defaultBreachDurationSecs := Entry.ofOption d.defaultBreachDurationSecs
  circuitBreaker :=
    .value
      { back_off_initial_interval := Entry.ofOption d.back_off_initial_interval
        back_off_max_interval := Entry.ofOption d.back_off_max_interval
        consecutive_failure_count := Entry.ofOption d.consecutive_failure_count }

/-- The key-by-key content of a document in which every key that occurs has a value, as a
document with possibly null values. -/
def Document.toYaml (d : Document) : YamlDocument :=
  .mapping d.toKeys

/-- The configuration with every default applied and nothing else set: the pre-seeded
defaults plus the three CircuitBreaker defaults, durations in nanoseconds. -/
def allDefaults : Config where
  Logging := ⟨"info"⟩
  Server := ⟨8080, ⟨[]⟩, [], 0⟩
  DB := ⟨⟨"", []⟩, ⟨"", []⟩⟩
  Aggregator := ⟨20, 200, 200, 40000000000, 40000000000, 5000000000⟩
  Evaluator := ⟨20, 200, 40000000000⟩
  ScalingEngine := ⟨"", ⟨[]⟩⟩
  MetricCollector := ⟨"", ⟨[]⟩⟩
  DefaultStatWindowSecs := 0
  DefaultBreachDurationSecs := 0
  CircuitBreaker := ⟨300000000000, 7200000000000, 3⟩

/-! ## Sample configurations -/

/-- A configuration that satisfies all sixteen rules. -/
def goodConfig : Config where
  Logging := ⟨"info"⟩
  Server := ⟨8080, ⟨[]⟩, ["a", "b"], 1⟩
  DB := ⟨⟨"postgres://policy", []⟩, ⟨"postgres://appmetrics", []⟩⟩
  Aggregator := ⟨20, 200, 200, 40 * Second, 40 * Second, 5 * Second⟩
  Evaluator := ⟨20, 200, 40 * Second⟩
  ScalingEngine := ⟨"https://scalingengine", ⟨[]⟩⟩
  MetricCollector := ⟨"https://metriccollector", ⟨[]⟩⟩
  DefaultStatWindowSecs := 300
  DefaultBreachDurationSecs := 300
  CircuitBreaker := ⟨5 * Minute, 2 * Hour, 3⟩

/-- A configuration that violates rule 1 (empty policy DB URL) and rule 14
(breach duration 0) at once, and no other rule. -/
def badUrlAndBreach : Config :=
  { goodConfig with
    DB := ⟨⟨"", []⟩, ⟨"postgres://appmetrics", []⟩⟩
    DefaultBreachDurationSecs := 0 }

/-- A configuration that violates rule 14 (breach duration 0) and rule 16 (node index 7
of two addresses) at once, and no other rule. -/
def badBreachAndIndex : Config :=
  { goodConfig with
    Server := ⟨8080, ⟨[]⟩, ["a", "b"], 7⟩
    DefaultBreachDurationSecs := 0 }

/-- The document of the fourth example scenario: two node addresses, node index 5. -/
def nodeIndexFive : Config :=
  { goodConfig with Server := ⟨8080, ⟨[]⟩, ["a", "b"], 5⟩ }

/-- The sample configuration with the default breach duration replaced. -/
def withBreachDuration (secs : Int) : Config :=
  { goodConfig with DefaultBreachDurationSecs := secs }

/-- The sample configuration with the default stat window replaced. -/
def withStatWindow (secs : Int) : Config :=
  { goodConfig with DefaultStatWindowSecs := secs }

/-- A document whose only key is an upper-case logging level. -/
def upperCaseLevelDoc : Document :=
  { Document.empty with level := some "INFO" }

/-- A document whose only key is an explicit zero `consecutive_failure_count`. -/
def zeroFailureCountDoc : Document :=
  { Document.empty with consecutive_failure_count := some 0 }

/-- A configuration as a deserializer may return it, with out-of-range values: empty URLs,
negative counts, no node address. -/
def outOfRangeConfig : Config where
  Logging := ⟨"DEBUG"⟩
  Server := ⟨0, ⟨[]⟩, [], -1⟩
  DB := ⟨⟨"", []⟩, ⟨"", []⟩⟩
  Aggregator := ⟨-20, -1, 0, -5, 0, 0⟩
  Evaluator := ⟨-3, 0, 0⟩
  ScalingEngine := ⟨"", ⟨[]⟩⟩
  MetricCollector := ⟨"", ⟨[]⟩⟩
  DefaultStatWindowSecs := 0
  DefaultBreachDurationSecs := 100000
  CircuitBreaker := ⟨-7, 0, 12⟩

/-- The call `c.Validate()` as a step on the configuration behind the pointer receiver
`c`: each return path of the method (lines 128-178) yields the returned error together
with the configuration as the call leaves it. The body only reads fields of `c`. -/
def runValidate (c : Config) : Except String Unit × Config :=
  if c.DB.PolicyDB.Url = "" then
    (.error "Configuration error: Policy DB url is empty", c)
  else if c.DB.AppMetricDB.Url = "" then
    (.error "Configuration error: AppMetric DB url is empty", c)
  else if c.ScalingEngine.ScalingEngineUrl = "" then
    (.error "Configuration error: Scaling engine url is empty", c)
  else if c.MetricCollector.MetricCollectorUrl = "" then
    (.error "Configuration error: Metric collector url is empty", c)
  else if c.Aggregator.AggregatorExecuteInterval ≤ 0 then
    (.error "Configuration error: aggregator execute interval is less-equal than 0", c)
  else if c.Aggregator.PolicyPollerInterval ≤ 0 then
    (.error "Configuration error: policy poller interval is less-equal than 0", c)
  else if c.Aggregator.SaveInterval ≤ 0 then
    (.error "Configuration error: save interval is less-equal than 0", c)
  else if c.Aggregator.MetricPollerCount ≤ 0 then
    (.error "Configuration error: metric poller count is less-equal than 0", c)
  else if c.Aggregator.AppMonitorChannelSize ≤ 0 then
    (.error "Configuration error: appMonitor channel size is less-equal than 0", c)
  else if c.Aggregator.AppMetricChannelSize ≤ 0 then
    (.error "Configuration error: appMetric channel size is less-equal than 0", c)
  else if c.Evaluator.EvaluationManagerInterval ≤ 0 then
    (.error "Configuration error: evalution manager execeute interval is less-equal than 0", c)
  else if c.Evaluator.EvaluatorCount ≤ 0 then
    (.error "Configuration error: evaluator count is less-equal than 0", c)
  else if c.Evaluator.TriggerArrayChannelSize ≤ 0 then
    (.error "Configuration error: trigger-array channel size is less-equal than 0", c)
  else if c.DefaultBreachDurationSecs < 60 ∨ c.DefaultBreachDurationSecs > 3600 then
    (.error "Configuration error: defaultBreachDurationSecs should be between 60 and 3600", c)
  else if c.DefaultStatWindowSecs < 60 ∨ c.DefaultStatWindowSecs > 3600 then
    (.error "Configuration error: defaultStatWindowSecs should be between 60 and 3600", c)
  else if c.Server.NodeIndex ≥ (c.Server.NodeAddrs.length : Int) ∨ c.Server.NodeIndex < 0 then
    (.error "Configuration error: node_index out of range", c)
  else
    (.ok (), c)

/-- The document of the second example scenario: the four URLs, both window fields 300, one
node address and node index 0; every interval and count is left out. -/
def scenarioTwoDoc : Document :=
  { Document.empty with
    policy_db := some ⟨"postgres://policy", []⟩
    app_metrics_db := some ⟨"postgres://appmetrics", []⟩
    scaling_engine_url := some "https://scalingengine"
    metric_collector_url := some "https://metriccollector"
    defaultStatWindowSecs := some 300
    defaultBreachDurationSecs := some 300
    node_addrs := some ["a"]
    node_index := some 0 }

/-- The sample configuration with another logging level, port 0, other TLS material and
pool parameters, other node addresses of the same number, and negative CircuitBreaker
values. -/
def negativeBreakerConfig : Config :=
  { goodConfig with
    Logging := ⟨"LOUD"⟩
    Server := ⟨0, ⟨["server.key", "server.crt"]⟩, ["x", "y"], 1⟩
    DB := ⟨⟨"postgres://policy", [10, 5]⟩, ⟨"postgres://appmetrics", [3]⟩⟩
    ScalingEngine := ⟨"https://scalingengine", ⟨["se.key"]⟩⟩
    MetricCollector := ⟨"https://metriccollector", ⟨["mc.key"]⟩⟩
    CircuitBreaker := ⟨-1, -2, -3⟩ }

/-- The four bytes of the document `null`. -/
def nullBytes : List UInt8 := [110, 117, 108, 108]

/-- The document `aggregator:` (the section key with a null value), nothing else. -/
def nullAggregatorDoc : YamlDocument :=
  .mapping { YamlKeys.none with aggregator := .null }

/-- A document with `aggregator:` null, `evaluator:` holding only `evaluator_count: 7`,
and `circuitBreaker:` null. -/
def partialDoc : YamlDocument :=
  .mapping
    { YamlKeys.none with
      aggregator := .null
      evaluator := .value ⟨.value 7, .absent, .absent⟩
      circuitBreaker := .null }

/-- A document whose only key is the logging level `Debug-Mode`. -/
def mixedCaseLevelDoc : YamlDocument :=
  .mapping { YamlKeys.none with logging := .value ⟨.value "Debug-Mode"⟩ }

/-! ## Theorems about Validate -/

/-- The guarded returns of `Validate` are tried in the order of the rule list: the first
violated rule decides the result. -/
theorem Validate_eq_error_of_first (c : Config) (i : Nat) (hi : i < 16)
    (hviol : specRuleHolds i c = false)
    (hprev : ∀ j, j < i → specRuleHolds j c = true) :
    Validate c = .error (ruleMessage i) := by
  have n0 : 0 < i → ¬ c.DB.PolicyDB.Url = "" := fun h => by
    have := hprev 0 h; simp [specRuleHolds] at this; exact this
  have n1 : 1 < i → ¬ c.DB.AppMetricDB.Url = "" := fun h => by
    have := hprev 1 h; simp [specRuleHolds] at this; exact this
  have n2 : 2 < i → ¬ c.ScalingEngine.ScalingEngineUrl = "" := fun h => by
    have := hprev 2 h; simp [specRuleHolds] at this; exact this
  have n3 : 3 < i → ¬ c.MetricCollector.MetricCollectorUrl = "" := fun h => by
    have := hprev 3 h; simp [specRuleHolds] at this; exact this
  have n4 : 4 < i → ¬ c.Aggregator.AggregatorExecuteInterval ≤ 0 := fun h => by
    have := hprev 4 h; simp [specRuleHolds] at this; omega
  have n5 : 5 < i → ¬ c.Aggregator.PolicyPollerInterval ≤ 0 := fun h => by
    have := hprev 5 h; simp [specRuleHolds] at this; omega
  have n6 : 6 < i → ¬ c.Aggregator.SaveInterval ≤ 0 := fun h => by
    have := hprev 6 h; simp [specRuleHolds] at this; omega
  have n7 : 7 < i → ¬ c.Aggregator.MetricPollerCount ≤ 0 := fun h => by
    have := hprev 7 h; simp [specRuleHolds] at this; omega
  have n8 : 8 < i → ¬ c.Aggregator.AppMonitorChannelSize ≤ 0 := fun h => by
    have := hprev 8 h; simp [specRuleHolds] at this; omega
  have n9 : 9 < i → ¬ c.Aggregator.AppMetricChannelSize ≤ 0 := fun h => by
    have := hprev 9 h; simp [specRuleHolds] at this; omega
  have n10 : 10 < i → ¬ c.Evaluator.EvaluationManagerInterval ≤ 0 := fun h => by
    have := hprev 10 h; simp [specRuleHolds] at this; omega
  have n11 : 11 < i → ¬ c.Evaluator.EvaluatorCount ≤ 0 := fun h => by
    have := hprev 11 h; simp [specRuleHolds] at this; omega
  have n12 : 12 < i → ¬ c.Evaluator.TriggerArrayChannelSize ≤ 0 := fun h => by
    have := hprev 12 h; simp [specRuleHolds] at this; omega
  have n13 : 13 < i →
      ¬ (c.DefaultBreachDurationSecs < 60 ∨ c.DefaultBreachDurationSecs > 3600) := fun h => by
    have := hprev 13 h; simp [specRuleHolds] at this; omega
  have n14 : 14 < i →
      ¬ (c.DefaultStatWindowSecs < 60 ∨ c.DefaultStatWindowSecs > 3600) := fun h => by
    have := hprev 14 h; simp [specRuleHolds] at this; omega
  clear hprev
  interval_cases i
  · rw [Validate, if_pos]
    · rfl
    · simp [specRuleHolds] at hviol; exact hviol
  · rw [Validate, if_neg (n0 (by decide)), if_pos]
    · rfl
    · simp [specRuleHolds] at hviol; exact hviol
  · rw [Validate, if_neg (n0 (by decide)), if_neg (n1 (by decide)), if_pos]
    · rfl
    · simp [specRuleHolds] at hviol; exact hviol
  · rw [Validate, if_neg (n0 (by decide)), if_neg (n1 (by decide)), if_neg (n2 (by decide)),
      if_pos]
    · rfl
    · simp [specRuleHolds] at hviol; exact hviol
  · rw [Validate, if_neg (n0 (by decide)), if_neg (n1 (by decide)), if_neg (n2 (by decide)),
      if_neg (n3 (by decide)), if_pos]
    · rfl
    · simp [specRuleHolds] at hviol; exact hviol
  · rw [Validate, if_neg (n0 (by decide)), if_neg (n1 (by decide)), if_neg (n2 (by decide)),
      if_neg (n3 (by decide)), if_neg (n4 (by decide)), if_pos]
    · rfl
    · simp [specRuleHolds] at hviol; exact hviol
  · rw [Validate, if_neg (n0 (by decide)), if_neg (n1 (by decide)), if_neg (n2 (by decide)),
      if_neg (n3 (by decide)), if_neg (n4 (by decide)), if_neg (n5 (by decide)), if_pos]
    · rfl
    · simp [specRuleHolds] at hviol; exact hviol
  · rw [Validate, if_neg (n0 (by decide)), if_neg (n1 (by decide)), if_neg (n2 (by decide)),
      if_neg (n3 (by decide)), if_neg (n4 (by decide)), if_neg (n5 (by decide)),
      if_neg (n6 (by decide)), if_pos]
    · rfl
    · simp [specRuleHolds] at hviol; exact hviol
  · rw [Validate, if_neg (n0 (by decide)), if_neg (n1 (by decide)), if_neg (n2 (by decide)),
      if_neg (n3 (by decide)), if_neg (n4 (by decide)), if_neg (n5 (by decide)),
      if_neg (n6 (by decide)), if_neg (n7 (by decide)), if_pos]
    · rfl
    · simp [specRuleHolds] at hviol; exact hviol
  · rw [Validate, if_neg (n0 (by decide)), if_neg (n1 (by decide)), if_neg (n2 (by decide)),
      if_neg (n3 (by decide)), if_neg (n4 (by decide)), if_neg (n5 (by decide)),
      if_neg (n6 (by decide)), if_neg (n7 (by decide)), if_neg (n8 (by decide)), if_pos]
    · rfl
    · simp [specRuleHolds] at hviol; exact hviol
  · rw [Validate, if_neg (n0 (by decide)), if_neg (n1 (by decide)), if_neg (n2 (by decide)),
      if_neg (n3 (by decide)), if_neg (n4 (by decide)), if_neg (n5 (by decide)),
      if_neg (n6 (by decide)), if_neg (n7 (by decide)), if_neg (n8 (by decide)),
      if_neg (n9 (by decide)), if_pos]
    · rfl
    · simp [specRuleHolds] at hviol; exact hviol
  · rw [Validate, if_neg (n0 (by decide)), if_neg (n1 (by decide)), if_neg (n2 (by decide)),
      if_neg (n3 (by decide)), if_neg (n4 (by decide)), if_neg (n5 (by decide)),
      if_neg (n6 (by decide)), if_neg (n7 (by decide)), if_neg (n8 (by decide)),
      if_neg (n9 (by decide)), if_neg (n10 (by decide)), if_pos]
    · rfl
    · simp [specRuleHolds] at hviol; exact hviol
  · rw [Validate, if_neg (n0 (by decide)), if_neg (n1 (by decide)), if_neg (n2 (by decide)),
      if_neg (n3 (by decide)), if_neg (n4 (by decide)), if_neg (n5 (by decide)),
      if_neg (n6 (by decide)), if_neg (n7 (by decide)), if_neg (n8 (by decide)),
      if_neg (n9 (by decide)), if_neg (n10 (by decide)), if_neg (n11 (by decide)), if_pos]
    · rfl
    · simp [specRuleHolds] at hviol; exact hviol
  · rw [Validate, if_neg (n0 (by decide)), if_neg (n1 (by decide)), if_neg (n2 (by decide)),
      if_neg (n3 (by decide)), if_neg (n4 (by decide)), if_neg (n5 (by decide)),
      if_neg (n6 (by decide)), if_neg (n7 (by decide)), if_neg (n8 (by decide)),
      if_neg (n9 (by decide)), if_neg (n10 (by decide)), if_neg (n11 (by decide)),
      if_neg (n12 (by decide)), if_pos]
    · rfl
    · simp [specRuleHolds] at hviol; omega
  · rw [Validate, if_neg (n0 (by decide)), if_neg (n1 (by decide)), if_neg (n2 (by decide)),
      if_neg (n3 (by decide)), if_neg (n4 (by decide)), if_neg (n5 (by decide)),
      if_neg (n6 (by decide)), if_neg (n7 (by decide)), if_neg (n8 (by decide)),
      if_neg (n9 (by decide)), if_neg (n10 (by decide)), if_neg (n11 (by decide)),
      if_neg (n12 (by decide)), if_neg (n13 (by decide)), if_pos]
    · rfl
    · simp [specRuleHolds] at hviol; omega
  · rw [Validate, if_neg (n0 (by decide)), if_neg (n1 (by decide)), if_neg (n2 (by decide)),
      if_neg (n3 (by decide)), if_neg (n4 (by decide)), if_neg (n5 (by decide)),
      if_neg (n6 (by decide)), if_neg (n7 (by decide)), if_neg (n8 (by decide)),
      if_neg (n9 (by decide)), if_neg (n10 (by decide)), if_neg (n11 (by decide)),
      if_neg (n12 (by decide)), if_neg (n13 (by decide)), if_neg (n14 (by decide)), if_pos]
    · rfl
    · simp [specRuleHolds] at hviol; omega

/-- When all sixteen rules hold, every guard of `Validate` is skipped and it returns nil. -/
theorem Validate_eq_ok_of_rules (c : Config) (h : ∀ j, j < 16 → specRuleHolds j c = true) :
    Validate c = .ok () := by
  have n0 := h 0 (by decide)
  have n1 := h 1 (by decide)
  have n2 := h 2 (by decide)
  have n3 := h 3 (by decide)
  have n4 := h 4 (by decide)
  have n5 := h 5 (by decide)
  have n6 := h 6 (by decide)
  have n7 := h 7 (by decide)
  have n8 := h 8 (by decide)
  have n9 := h 9 (by decide)
  have n10 := h 10 (by decide)
  have n11 := h 11 (by decide)
  have n12 := h 12 (by decide)
  have n13 := h 13 (by decide)
  have n14 := h 14 (by decide)
  have n15 := h 15 (by decide)
  simp [specRuleHolds] at n0 n1 n2 n3 n4 n5 n6 n7 n8 n9 n10 n11 n12 n13 n14 n15
  rw [Validate, if_neg n0, if_neg n1, if_neg n2, if_neg n3, if_neg (by omega), if_neg (by omega),
    if_neg (by omega), if_neg (by omega), if_neg (by omega), if_neg (by omega), if_neg (by omega),
    if_neg (by omega), if_neg (by omega), if_neg (by omega), if_neg (by omega), if_neg (by omega)]

/-- Conversely, a nil result of `Validate` means that all sixteen rules hold. -/
theorem rules_of_Validate_eq_ok (c : Config) (h : Validate c = .ok ()) :
    ∀ j, j < 16 → specRuleHolds j c = true := by
  by_contra hne
  push_neg at hne
  have hex : ∃ j, j < 16 ∧ specRuleHolds j c = false := by
    obtain ⟨j, hj, hjv⟩ := hne
    exact ⟨j, hj, by simpa using hjv⟩
  obtain ⟨hlt, hv⟩ := Nat.find_spec hex
  have herr := Validate_eq_error_of_first c (Nat.find hex) hlt hv (fun j hj => by
    have hmin := Nat.find_min hex hj
    simp only [not_and] at hmin
    simpa using hmin (lt_trans hj hlt))
  rw [h] at herr
  cases herr

/-- C1: for every configuration, if rule `i + 1` of the ordered list is violated and all
earlier rules hold, `Validate` returns exactly the message of rule `i + 1`, whatever the
later rules do. -/
theorem Validate_reports_first_violation (c : Config) (i : Nat) (hi : i < 16)
    (hviol : specRuleHolds i c = false)
    (hprev : ∀ j, j < i → specRuleHolds j c = true) :
    Validate c = .error (ruleMessage i) :=
  Validate_eq_error_of_first c i hi hviol hprev

/-- Witness for C1: a configuration violating rules 1 and 14 reports the rule-1 message,
and one violating rules 14 and 16 reports the rule-14 message. -/
theorem Validate_reports_first_violation_witness :
    (specRuleHolds 0 badUrlAndBreach = false ∧ specRuleHolds 13 badUrlAndBreach = false ∧
      Validate badUrlAndBreach = .error "Configuration error: Policy DB url is empty") ∧
    (specRuleHolds 13 badBreachAndIndex = false ∧ specRuleHolds 15 badBreachAndIndex = false ∧
      Validate badBreachAndIndex =
        .error "Configuration error: defaultBreachDurationSecs should be between 60 and 3600") :=
  ⟨⟨by decide, by decide,
      Validate_reports_first_violation badUrlAndBreach 0 (by decide) (by decide)
        (fun j hj => absurd hj (Nat.not_lt_zero j))⟩,
    ⟨by decide, by decide,
      Validate_reports_first_violation badBreachAndIndex 13 (by decide) (by decide)
        (by decide)⟩⟩

/-- C2: `Validate` returns nil exactly when the four URLs are non-empty, the four intervals
and the five counts are positive, breach duration and stat window lie in [60, 3600], and
`0 ≤ node_index < len(node_addrs)`. -/
theorem Validate_eq_ok_iff (c : Config) :
    Validate c = .ok () ↔
      (c.DB.PolicyDB.Url ≠ "" ∧ c.DB.AppMetricDB.Url ≠ "" ∧
        c.ScalingEngine.ScalingEngineUrl ≠ "" ∧ c.MetricCollector.MetricCollectorUrl ≠ "") ∧
      (0 < c.Aggregator.AggregatorExecuteInterval ∧ 0 < c.Aggregator.PolicyPollerInterval ∧
        0 < c.Aggregator.SaveInterval ∧ 0 < c.Evaluator.EvaluationManagerInterval) ∧
      (0 < c.Aggregator.MetricPollerCount ∧ 0 < c.Aggregator.AppMonitorChannelSize ∧
        0 < c.Aggregator.AppMetricChannelSize ∧ 0 < c.Evaluator.EvaluatorCount ∧
        0 < c.Evaluator.TriggerArrayChannelSize) ∧
      (60 ≤ c.DefaultBreachDurationSecs ∧ c.DefaultBreachDurationSecs ≤ 3600) ∧
      (60 ≤ c.DefaultStatWindowSecs ∧ c.DefaultStatWindowSecs ≤ 3600) ∧
      (0 ≤ c.Server.NodeIndex ∧ c.Server.NodeIndex < (c.Server.NodeAddrs.length : Int)) := by
  constructor
  · intro h
    have r := rules_of_Validate_eq_ok c h
    have n0 := r 0 (by decide)
    have n1 := r 1 (by decide)
    have n2 := r 2 (by decide)
    have n3 := r 3 (by decide)
    have n4 := r 4 (by decide)
    have n5 := r 5 (by decide)
    have n6 := r 6 (by decide)
    have n7 := r 7 (by decide)
    have n8 := r 8 (by decide)
    have n9 := r 9 (by decide)
    have n10 := r 10 (by decide)
    have n11 := r 11 (by decide)
    have n12 := r 12 (by decide)
    have n13 := r 13 (by decide)
    have n14 := r 14 (by decide)
    have n15 := r 15 (by decide)
    simp [specRuleHolds] at n0 n1 n2 n3 n4 n5 n6 n7 n8 n9 n10 n11 n12 n13 n14 n15
    exact ⟨⟨n0, n1, n2, n3⟩, ⟨n4, n5, n6, n10⟩, ⟨n7, n8, n9, n11, n12⟩, n13, n14, n15⟩
  · rintro ⟨⟨u0, u1, u2, u3⟩, ⟨i4, i5, i6, i10⟩, ⟨k7, k8, k9, k11, k12⟩, b13, s14, x15⟩
    apply Validate_eq_ok_of_rules
    intro j hj
    interval_cases j <;> simp [specRuleHolds, *]

/-- C8: when rules 1-15 hold, `Validate` fails with the node-index message if
`node_index` equals or exceeds `len(node_addrs)` or is negative, and succeeds if the list
is non-empty and `node_index = len(node_addrs) - 1`. -/
theorem Validate_node_index (c : Config) (h : ∀ j, j < 15 → specRuleHolds j c = true) :
    ((c.Server.NodeIndex = (c.Server.NodeAddrs.length : Int) ∨
        c.Server.NodeIndex > (c.Server.NodeAddrs.length : Int) ∨ c.Server.NodeIndex < 0) →
      Validate c = .error "Configuration error: node_index out of range") ∧
    (c.Server.NodeAddrs ≠ [] → c.Server.NodeIndex = (c.Server.NodeAddrs.length : Int) - 1 →
      Validate c = .ok ()) := by
  constructor
  · intro hout
    refine Validate_eq_error_of_first c 15 (by decide) ?_ h
    simp only [specRuleHolds, decide_eq_false_iff_not]
    omega
  · intro hne hidx
    apply Validate_eq_ok_of_rules
    intro j hj
    by_cases hj15 : j < 15
    · exact h j hj15
    · have hj : j = 15 := by omega
      subst hj
      have hpos : 0 < c.Server.NodeAddrs.length := List.length_pos.mpr hne
      simp only [specRuleHolds, decide_eq_true_eq]
      omega

/-- Witness for C8: node addresses `["a","b"]` with node index 5 fail with the node-index
message, and the same addresses with node index 1 pass. -/
theorem Validate_node_index_witness :
    (∀ j, j < 15 → specRuleHolds j nodeIndexFive = true) ∧
      Validate nodeIndexFive = .error "Configuration error: node_index out of range" ∧
      Validate goodConfig = .ok () :=
  ⟨by decide,
    (Validate_node_index nodeIndexFive (by decide)).1 (Or.inr (Or.inl (by decide))),
    (Validate_node_index goodConfig (by decide)).2 (by decide) (by decide)⟩

/-- C9: when all other rules hold, `Validate` fails exactly for a breach duration (resp.
stat window) below 60 or above 3600 and succeeds for one in [60, 3600]; when both fields
are out of range and rules 1-13 hold, the breach-duration message is the one reported. -/
theorem Validate_breach_stat_bounds (c : Config) :
    ((∀ j, j < 16 → j ≠ 13 → specRuleHolds j c = true) →
      ((c.DefaultBreachDurationSecs < 60 ∨ 3600 < c.DefaultBreachDurationSecs) →
        Validate c =
          .error "Configuration error: defaultBreachDurationSecs should be between 60 and 3600") ∧
      ((60 ≤ c.DefaultBreachDurationSecs ∧ c.DefaultBreachDurationSecs ≤ 3600) →
        Validate c = .ok ())) ∧
    ((∀ j, j < 16 → j ≠ 14 → specRuleHolds j c = true) →
      ((c.DefaultStatWindowSecs < 60 ∨ 3600 < c.DefaultStatWindowSecs) →
        Validate c =
          .error "Configuration error: defaultStatWindowSecs should be between 60 and 3600") ∧
      ((60 ≤ c.DefaultStatWindowSecs ∧ c.DefaultStatWindowSecs ≤ 3600) →
        Validate c = .ok ())) ∧
    ((∀ j, j < 13 → specRuleHolds j c = true) →
      (c.DefaultBreachDurationSecs < 60 ∨ 3600 < c.DefaultBreachDurationSecs) →
      (c.DefaultStatWindowSecs < 60 ∨ 3600 < c.DefaultStatWindowSecs) →
      Validate c =
        .error "Configuration error: defaultBreachDurationSecs should be between 60 and 3600") := by
  have hbreach : (c.DefaultBreachDurationSecs < 60 ∨ 3600 < c.DefaultBreachDurationSecs) →
      specRuleHolds 13 c = false := by
    intro hb
    simp only [specRuleHolds, decide_eq_false_iff_not]
    omega
  refine ⟨fun h => ⟨fun hb => ?_, fun hb => ?_⟩, fun h => ⟨fun hs => ?_, fun hs => ?_⟩,
    fun h hb _ => ?_⟩
  · exact Validate_eq_error_of_first c 13 (by decide) (hbreach hb)
      (fun j hj => h j (by omega) (by omega))
  · apply Validate_eq_ok_of_rules
    intro j hj
    by_cases hj13 : j = 13
    · subst hj13
      simp only [specRuleHolds, decide_eq_true_eq]
      exact hb
    · exact h j hj hj13
  · refine Validate_eq_error_of_first c 14 (by decide) ?_ (fun j hj => h j (by omega) (by omega))
    simp only [specRuleHolds, decide_eq_false_iff_not]
    omega
  · apply Validate_eq_ok_of_rules
    intro j hj
    by_cases hj14 : j = 14
    · subst hj14
      simp only [specRuleHolds, decide_eq_true_eq]
      exact hs
    · exact h j hj hj14
  · exact Validate_eq_error_of_first c 13 (by decide) (hbreach hb) h

/-- Witness for C9: the boundary values 59, 60, 3600 and 3601 of both fields, and a
configuration with both fields out of range. -/
theorem Validate_breach_stat_bounds_witness :
    (Validate (withBreachDuration 59) =
        .error "Configuration error: defaultBreachDurationSecs should be between 60 and 3600" ∧
      Validate (withBreachDuration 60) = .ok () ∧
      Validate (withBreachDuration 3600) = .ok () ∧
      Validate (withBreachDuration 3601) =
        .error "Configuration error: defaultBreachDurationSecs should be between 60 and 3600") ∧
    (Validate (withStatWindow 59) =
        .error "Configuration error: defaultStatWindowSecs should be between 60 and 3600" ∧
      Validate (withStatWindow 60) = .ok () ∧
      Validate (withStatWindow 3600) = .ok () ∧
      Validate (withStatWindow 3601) =
        .error "Configuration error: defaultStatWindowSecs should be between 60 and 3600") ∧
    Validate { withBreachDuration 3601 with DefaultStatWindowSecs := 59 } =
      .error "Configuration error: defaultBreachDurationSecs should be between 60 and 3600" :=
  ⟨⟨((Validate_breach_stat_bounds (withBreachDuration 59)).1 (by decide)).1 (by decide),
      ((Validate_breach_stat_bounds (withBreachDuration 60)).1 (by decide)).2 (by decide),
      ((Validate_breach_stat_bounds (withBreachDuration 3600)).1 (by decide)).2 (by decide),
      ((Validate_breach_stat_bounds (withBreachDuration 3601)).1 (by decide)).1 (by decide)⟩,
    ⟨((Validate_breach_stat_bounds (withStatWindow 59)).2.1 (by decide)).1 (by decide),
      ((Validate_breach_stat_bounds (withStatWindow 60)).2.1 (by decide)).2 (by decide),
      ((Validate_breach_stat_bounds (withStatWindow 3600)).2.1 (by decide)).2 (by decide),
      ((Validate_breach_stat_bounds (withStatWindow 3601)).2.1 (by decide)).1 (by decide)⟩,
    (Validate_breach_stat_bounds { withBreachDuration 3601 with DefaultStatWindowSecs := 59 }).2.2
      (by decide) (by decide) (by decide)⟩

/-! ## Lemmas about the statements after deserialization -/

theorem postFill_Level (caseTable : Char → Char) (conf : Config) :
    (postFill caseTable conf).Logging.Level = ToLower caseTable conf.Logging.Level := by
  simp only [postFill]
  split_ifs <;> rfl

theorem postFill_ConsecutiveFailureCount (caseTable : Char → Char) (conf : Config) :
    (postFill caseTable conf).CircuitBreaker.ConsecutiveFailureCount =
      if conf.CircuitBreaker.ConsecutiveFailureCount = 0 then 3
      else conf.CircuitBreaker.ConsecutiveFailureCount := by
  simp only [postFill, DefaultBreakerConsecutiveFailureCount]
  split_ifs <;> rfl

theorem postFill_BackOffInitialInterval (caseTable : Char → Char) (conf : Config) :
    (postFill caseTable conf).CircuitBreaker.BackOffInitialInterval =
      if conf.CircuitBreaker.BackOffInitialInterval = 0 then 5 * Minute
      else conf.CircuitBreaker.BackOffInitialInterval := by
  simp only [postFill, DefaultBackOffInitialInterval]
  split_ifs <;> rfl

theorem postFill_BackOffMaxInterval (caseTable : Char → Char) (conf : Config) :
    (postFill caseTable conf).CircuitBreaker.BackOffMaxInterval =
      if conf.CircuitBreaker.BackOffMaxInterval = 0 then 2 * Hour
      else conf.CircuitBreaker.BackOffMaxInterval := by
  simp only [postFill, DefaultBackOffMaxInterval]
  split_ifs <;> rfl

theorem postFill_Server (caseTable : Char → Char) (conf : Config) :
    (postFill caseTable conf).Server = conf.Server := by
  simp only [postFill]
  split_ifs <;> rfl

theorem postFill_Aggregator (caseTable : Char → Char) (conf : Config) :
    (postFill caseTable conf).Aggregator = conf.Aggregator := by
  simp only [postFill]
  split_ifs <;> rfl

theorem postFill_Evaluator (caseTable : Char → Char) (conf : Config) :
    (postFill caseTable conf).Evaluator = conf.Evaluator := by
  simp only [postFill]
  split_ifs <;> rfl

theorem LoadConfig_of_ok {ε : Type} (caseTable : Char → Char)
    (unmarshal : List UInt8 → Config → Except ε (Option Config)) (bytes : List UInt8) (conf : Config)
    (h : unmarshal bytes preSeeded = .ok (some conf)) :
    LoadConfig caseTable unmarshal bytes = .ok (postFill caseTable conf) := by
  simp only [LoadConfig, h]

theorem LoadConfig_of_error {ε : Type} (caseTable : Char → Char)
    (unmarshal : List UInt8 → Config → Except ε (Option Config)) (bytes : List UInt8) (err : ε)
    (h : unmarshal bytes preSeeded = .error err) :
    LoadConfig caseTable unmarshal bytes = .error err := by
  simp only [LoadConfig, h]

theorem LoadConfig_document {ε : Type} (caseTable : Char → Char)
    (parse : List UInt8 → Except ε Document) (bytes : List UInt8) (d : Document)
    (h : parse bytes = .ok d) :
    LoadConfig caseTable (unmarshalDocument parse) bytes =
      .ok (postFill caseTable (d.applyTo preSeeded)) :=
  LoadConfig_of_ok caseTable _ bytes _ (by simp only [unmarshalDocument, h])

theorem ToLower_info (caseTable : Char → Char) : ToLower caseTable "info" = "info" := by
  rfl

theorem isUpperASCII_unicodeToLower (caseTable : Char → Char)
    (htable : ∀ r : Char, 127 < r.toNat → isUpperASCII (caseTable r) = false) (r : Char) :
    isUpperASCII (unicodeToLower caseTable r) = false := by
  unfold unicodeToLower
  split_ifs with hascii hup
  · simp only [isUpperASCII, decide_eq_true_eq] at hup
    obtain ⟨hlo, hhi⟩ := hup
    generalize r.toNat = n at hlo hhi
    interval_cases n <;> rfl
  · simpa using hup
  · exact htable r (by omega)

/-! ## Theorems about LoadConfig -/

theorem ToLower_empty (caseTable : Char → Char) : ToLower caseTable "" = "" := by
  rfl

theorem LoadConfig_of_nil {ε : Type} (caseTable : Char → Char)
    (unmarshal : List UInt8 → Config → Except ε (Option Config)) (bytes : List UInt8)
    (h : unmarshal bytes preSeeded = .ok none) :
    LoadConfig caseTable unmarshal bytes = .nilDereference := by
  simp only [LoadConfig, h]

theorem LoadConfig_yaml {ε : Type} (caseTable : Char → Char)
    (parse : List UInt8 → Except ε YamlDocument) (bytes : List UInt8) (d : YamlDocument)
    (conf : Config) (h : parse bytes = .ok d) (hconf : d.applyTo preSeeded = some conf) :
    LoadConfig caseTable (unmarshalYaml parse) bytes = .ok (postFill caseTable conf) :=
  LoadConfig_of_ok caseTable _ bytes _ (by simp only [unmarshalYaml, h, hconf])

theorem Entry.ofOption_assign {α : Type} (o : Option α) (zero old : α) :
    (Entry.ofOption o).assign zero old = o.getD old := by
  cases o <;> rfl

theorem Entry.assignNested_value {κ σ : Type} (keys : κ) (apply : κ → σ → σ) (zero old : σ) :
    (Entry.value keys).assignNested apply zero old = apply keys old :=
  rfl

theorem DatabaseKeys.ofOption_assignNested (o : Option DatabaseConfig)
    (old : DatabaseConfig) :
    (DatabaseKeys.ofOption o).assignNested DatabaseKeys.applyTo DatabaseConfig.zero old =
      o.getD old := by
  cases o <;> rfl

/-- A document in which every key that occurs has a value is deserialized the same way
whether it is read key by key or as a document with possibly null values. -/
theorem Document.toYaml_applyTo (d : Document) (conf : Config) :
    d.toYaml.applyTo conf = some (d.applyTo conf) := by
  simp only [Document.toYaml, Document.toKeys, YamlDocument.applyTo, YamlKeys.applyTo,
    Document.applyTo, Entry.assignNested_value, LoggingKeys.applyTo, ServerKeys.applyTo,
    DBKeys.applyTo, AggregatorKeys.applyTo, EvaluatorKeys.applyTo, ScalingEngineKeys.applyTo,
    MetricCollectorKeys.applyTo, CircuitBreakerKeys.applyTo, Entry.ofOption_assign,
    DatabaseKeys.ofOption_assignNested]

theorem unmarshalDocument_eq_unmarshalYaml {ε : Type} (parse : List UInt8 → Except ε Document) :
    unmarshalDocument parse =
      unmarshalYaml fun bytes =>
        match parse bytes with
        | .error err => .error err
        | .ok d => .ok d.toYaml := by
  funext bytes conf
  simp only [unmarshalDocument, unmarshalYaml]
  cases parse bytes with
  | error err => rfl
  | ok d => simp only [Document.toYaml_applyTo]

/-- A leaf key that is left out of a section which is absent or a mapping leaves its
field untouched. -/
theorem Entry.proj_of_omitted {κ σ α : Type} (sec : Entry κ) (leaf : κ → Entry α)
    (apply : κ → σ → σ) (zero old : σ) (proj : σ → α) (zeroLeaf : α)
    (hproj : ∀ keys o, proj (apply keys o) = (leaf keys).assign zeroLeaf (proj o))
    (h : sec.find leaf = .omitted) :
    proj (sec.assignNested apply zero old) = proj old := by
  cases sec with
  | absent => rfl
  | null => cases h
  | value keys =>
    simp only [Entry.find] at h
    simp only [Entry.assignNested, hproj]
    cases hleaf : leaf keys with
    | absent => rfl
    | null => rw [hleaf] at h; cases h
    | value v => rw [hleaf] at h; cases h

/-- A section that is present with a null value sets every field of the section to the
zero value. -/
theorem Entry.proj_of_nullSection {κ σ α : Type} (sec : Entry κ) (leaf : κ → Entry α)
    (apply : κ → σ → σ) (zero old : σ) (proj : σ → α) (zeroLeaf : α)
    (_hproj : ∀ keys o, proj (apply keys o) = (leaf keys).assign zeroLeaf (proj o))
    (h : sec.find leaf = .nullSection) :
    proj (sec.assignNested apply zero old) = proj zero := by
  cases sec with
  | absent => cases h
  | null => rfl
  | value keys =>
    simp only [Entry.find] at h
    cases hleaf : leaf keys with
    | absent => rw [hleaf] at h; cases h
    | null => rw [hleaf] at h; cases h
    | value v => rw [hleaf] at h; cases h

/-- C3, as stated, fails: the document `aggregator:` omits `metric_poller_count` and the
other five keys of the section, and is loaded with these fields zero, not 20, 200, 200,
40 s, 40 s and 5 s. -/
theorem LoadConfig_null_section_not_default :
    nullAggregatorDoc.keys.aggregator.find AggregatorKeys.metric_poller_count = .nullSection ∧
      ∃ conf, LoadConfig id (unmarshalYaml fun _ => (.ok nullAggregatorDoc : Except String YamlDocument))
          [] = .ok conf ∧
        conf.Aggregator = ⟨0, 0, 0, 0, 0, 0⟩ ∧ conf.Aggregator.MetricPollerCount ≠ 20 :=
  ⟨rfl, _, rfl, by decide, by decide⟩

/-- C3, amended: for every document but the null document `LoadConfig` returns a
configuration, and a defaultable field that the document omits carries its documented
default when it is a CircuitBreaker field or when its section is absent or a mapping;
a logging, server, Aggregator or Evaluator field whose section is present with a null
value carries the zero value instead. -/
theorem LoadConfig_omitted_field_default {ε : Type} (caseTable : Char → Char)
    (parse : List UInt8 → Except ε YamlDocument) (bytes : List UInt8) (d : YamlDocument)
    (hparse : parse bytes = .ok d) (hnonnull : d ≠ .null) :
    ∃ conf, LoadConfig caseTable (unmarshalYaml parse) bytes = .ok conf ∧
      (d.keys.logging.find LoggingKeys.level = .omitted →
        conf.Logging.Level = "info") ∧
      (d.keys.server.find ServerKeys.port = .omitted →
        conf.Server.Port = 8080) ∧
      (d.keys.aggregator.find AggregatorKeys.policy_poller_interval = .omitted →
        conf.Aggregator.PolicyPollerInterval = 40000000000) ∧
      (d.keys.aggregator.find AggregatorKeys.aggregator_execute_interval = .omitted →
        conf.Aggregator.AggregatorExecuteInterval = 40000000000) ∧
      (d.keys.aggregator.find AggregatorKeys.save_interval = .omitted →
        conf.Aggregator.SaveInterval = 5000000000) ∧
      (d.keys.aggregator.find AggregatorKeys.metric_poller_count = .omitted →
        conf.Aggregator.MetricPollerCount = 20) ∧
      (d.keys.aggregator.find AggregatorKeys.app_monitor_channel_size = .omitted →
        conf.Aggregator.AppMonitorChannelSize = 200) ∧
      (d.keys.aggregator.find AggregatorKeys.app_metric_channel_size = .omitted →
        conf.Aggregator.AppMetricChannelSize = 200) ∧
      (d.keys.evaluator.find EvaluatorKeys.evaluation_manager_execute_interval = .omitted →
        conf.Evaluator.EvaluationManagerInterval = 40000000000) ∧
      (d.keys.evaluator.find EvaluatorKeys.evaluator_count = .omitted →
        conf.Evaluator.EvaluatorCount = 20) ∧
      (d.keys.evaluator.find EvaluatorKeys.trigger_array_channel_size = .omitted →
        conf.Evaluator.TriggerArrayChannelSize = 200) ∧
      (d.keys.logging.find LoggingKeys.level = .nullSection →
        conf.Logging.Level = "") ∧
      (d.keys.server.find ServerKeys.port = .nullSection →
        conf.Server.Port = 0) ∧
      (d.keys.aggregator.find AggregatorKeys.policy_poller_interval = .nullSection →
        conf.Aggregator.PolicyPollerInterval = 0) ∧
      (d.keys.aggregator.find AggregatorKeys.aggregator_execute_interval = .nullSection →
        conf.Aggregator.AggregatorExecuteInterval = 0) ∧
      (d.keys.aggregator.find AggregatorKeys.save_interval = .nullSection →
        conf.Aggregator.SaveInterval = 0) ∧
      (d.keys.aggregator.find AggregatorKeys.metric_poller_count = .nullSection →
        conf.Aggregator.MetricPollerCount = 0) ∧
      (d.keys.aggregator.find AggregatorKeys.app_monitor_channel_size = .nullSection →
        conf.Aggregator.AppMonitorChannelSize = 0) ∧
      (d.keys.aggregator.find AggregatorKeys.app_metric_channel_size = .nullSection →
        conf.Aggregator.AppMetricChannelSize = 0) ∧
      (d.keys.evaluator.find EvaluatorKeys.evaluation_manager_execute_interval = .nullSection →
        conf.Evaluator.EvaluationManagerInterval = 0) ∧
      (d.keys.evaluator.find EvaluatorKeys.evaluator_count = .nullSection →
        conf.Evaluator.EvaluatorCount = 0) ∧
      (d.keys.evaluator.find EvaluatorKeys.trigger_array_channel_size = .nullSection →
        conf.Evaluator.TriggerArrayChannelSize = 0) ∧
      ((d.keys.circuitBreaker.find CircuitBreakerKeys.back_off_initial_interval = .omitted ∨
          d.keys.circuitBreaker.find CircuitBreakerKeys.back_off_initial_interval = .nullSection) →
        conf.CircuitBreaker.BackOffInitialInterval = 300000000000) ∧
      ((d.keys.circuitBreaker.find CircuitBreakerKeys.back_off_max_interval = .omitted ∨
          d.keys.circuitBreaker.find CircuitBreakerKeys.back_off_max_interval = .nullSection) →
        conf.CircuitBreaker.BackOffMaxInterval = 7200000000000) ∧
      ((d.keys.circuitBreaker.find CircuitBreakerKeys.consecutive_failure_count = .omitted ∨
          d.keys.circuitBreaker.find CircuitBreakerKeys.consecutive_failure_count = .nullSection) →
        conf.CircuitBreaker.ConsecutiveFailureCount = 3) := by
  have hload : LoadConfig caseTable (unmarshalYaml parse) bytes =
      .ok (postFill caseTable (d.keys.applyTo preSeeded)) := by
    apply LoadConfig_yaml caseTable parse bytes d _ hparse
    cases d with
    | empty => rfl
    | null => exact absurd rfl hnonnull
    | mapping keys => rfl
  refine ⟨_, hload, ?_⟩
  generalize d.keys = k
  refine ⟨?_, ?_, ?_, ?_, ?_, ?_, ?_, ?_, ?_, ?_, ?_, ?_, ?_, ?_, ?_, ?_, ?_, ?_, ?_, ?_, ?_, ?_,
    ?_, ?_, ?_⟩
  · intro h
    rw [postFill_Level]
    exact (congrArg (ToLower caseTable) (Entry.proj_of_omitted k.logging
        LoggingKeys.level LoggingKeys.applyTo
        (⟨""⟩ : LoggingConfig) preSeeded.Logging
        (fun c => c.Level) "" (fun _ _ => rfl) h)).trans
      (ToLower_info caseTable)
  · intro h
    rw [postFill_Server]
    exact Entry.proj_of_omitted k.server
        ServerKeys.port ServerKeys.applyTo
        ServerConfig.zero preSeeded.Server
        (fun c => c.Port) 0 (fun _ _ => rfl) h
  · intro h
    rw [postFill_Aggregator]
    exact Entry.proj_of_omitted k.aggregator
        AggregatorKeys.policy_poller_interval AggregatorKeys.applyTo
        AggregatorConfig.zero preSeeded.Aggregator
        (fun c => c.PolicyPollerInterval) 0 (fun _ _ => rfl) h
  · intro h
    rw [postFill_Aggregator]
    exact Entry.proj_of_omitted k.aggregator
        AggregatorKeys.aggregator_execute_interval AggregatorKeys.applyTo
        AggregatorConfig.zero preSeeded.Aggregator
        (fun c => c.AggregatorExecuteInterval) 0 (fun _ _ => rfl) h
  · intro h
    rw [postFill_Aggregator]
    exact Entry.proj_of_omitted k.aggregator
        AggregatorKeys.save_interval AggregatorKeys.applyTo
        AggregatorConfig.zero preSeeded.Aggregator
        (fun c => c.SaveInterval) 0 (fun _ _ => rfl) h
  · intro h
    rw [postFill_Aggregator]
    exact Entry.proj_of_omitted k.aggregator
        AggregatorKeys.metric_poller_count AggregatorKeys.applyTo
        AggregatorConfig.zero preSeeded.Aggregator
        (fun c => c.MetricPollerCount) 0 (fun _ _ => rfl) h
  · intro h
    rw [postFill_Aggregator]
    exact Entry.proj_of_omitted k.aggregator
        AggregatorKeys.app_monitor_channel_size AggregatorKeys.applyTo
        AggregatorConfig.zero preSeeded.Aggregator
        (fun c => c.AppMonitorChannelSize) 0 (fun _ _ => rfl) h
  · intro h
    rw [postFill_Aggregator]
    exact Entry.proj_of_omitted k.aggregator
        AggregatorKeys.app_metric_channel_size AggregatorKeys.applyTo
        AggregatorConfig.zero preSeeded.Aggregator
        (fun c => c.AppMetricChannelSize) 0 (fun _ _ => rfl) h
  · intro h
    rw [postFill_Evaluator]
    exact Entry.proj_of_omitted k.evaluator
        EvaluatorKeys.evaluation_manager_execute_interval EvaluatorKeys.applyTo
        EvaluatorConfig.zero preSeeded.Evaluator
        (fun c => c.EvaluationManagerInterval) 0 (fun _ _ => rfl) h
  · intro h
    rw [postFill_Evaluator]
    exact Entry.proj_of_omitted k.evaluator
        EvaluatorKeys.evaluator_count EvaluatorKeys.applyTo
        EvaluatorConfig.zero preSeeded.Evaluator
        (fun c => c.EvaluatorCount) 0 (fun _ _ => rfl) h
  · intro h
    rw [postFill_Evaluator]
    exact Entry.proj_of_omitted k.evaluator
        EvaluatorKeys.trigger_array_channel_size EvaluatorKeys.applyTo
        EvaluatorConfig.zero preSeeded.Evaluator
        (fun c => c.TriggerArrayChannelSize) 0 (fun _ _ => rfl) h
  · intro h
    rw [postFill_Level]
    exact (congrArg (ToLower caseTable) (Entry.proj_of_nullSection k.logging
        LoggingKeys.level LoggingKeys.applyTo
        (⟨""⟩ : LoggingConfig) preSeeded.Logging
        (fun c => c.Level) "" (fun _ _ => rfl) h)).trans
      (ToLower_empty caseTable)
  · intro h
    rw [postFill_Server]
    exact Entry.proj_of_nullSection k.server
        ServerKeys.port ServerKeys.applyTo
        ServerConfig.zero preSeeded.Server
        (fun c => c.Port) 0 (fun _ _ => rfl) h
  · intro h
    rw [postFill_Aggregator]
    exact Entry.proj_of_nullSection k.aggregator
        AggregatorKeys.policy_poller_interval AggregatorKeys.applyTo
        AggregatorConfig.zero preSeeded.Aggregator
        (fun c => c.PolicyPollerInterval) 0 (fun _ _ => rfl) h
  · intro h
    rw [postFill_Aggregator]
    exact Entry.proj_of_nullSection k.aggregator
        AggregatorKeys.aggregator_execute_interval AggregatorKeys.applyTo
        AggregatorConfig.zero preSeeded.Aggregator
        (fun c => c.AggregatorExecuteInterval) 0 (fun _ _ => rfl) h
  · intro h
    rw [postFill_Aggregator]
    exact Entry.proj_of_nullSection k.aggregator
        AggregatorKeys.save_interval AggregatorKeys.applyTo
        AggregatorConfig.zero preSeeded.Aggregator
        (fun c => c.SaveInterval) 0 (fun _ _ => rfl) h
  · intro h
    rw [postFill_Aggregator]
    exact Entry.proj_of_nullSection k.aggregator
        AggregatorKeys.metric_poller_count AggregatorKeys.applyTo
        AggregatorConfig.zero preSeeded.Aggregator
        (fun c => c.MetricPollerCount) 0 (fun _ _ => rfl) h
  · intro h
    rw [postFill_Aggregator]
    exact Entry.proj_of_nullSection k.aggregator
        AggregatorKeys.app_monitor_channel_size AggregatorKeys.applyTo
        AggregatorConfig.zero preSeeded.Aggregator
        (fun c => c.AppMonitorChannelSize) 0 (fun _ _ => rfl) h
  · intro h
    rw [postFill_Aggregator]
    exact Entry.proj_of_nullSection k.aggregator
        AggregatorKeys.app_metric_channel_size AggregatorKeys.applyTo
        AggregatorConfig.zero preSeeded.Aggregator
        (fun c => c.AppMetricChannelSize) 0 (fun _ _ => rfl) h
  · intro h
    rw [postFill_Evaluator]
    exact Entry.proj_of_nullSection k.evaluator
        EvaluatorKeys.evaluation_manager_execute_interval EvaluatorKeys.applyTo
        EvaluatorConfig.zero preSeeded.Evaluator
        (fun c => c.EvaluationManagerInterval) 0 (fun _ _ => rfl) h
  · intro h
    rw [postFill_Evaluator]
    exact Entry.proj_of_nullSection k.evaluator
        EvaluatorKeys.evaluator_count EvaluatorKeys.applyTo
        EvaluatorConfig.zero preSeeded.Evaluator
        (fun c => c.EvaluatorCount) 0 (fun _ _ => rfl) h
  · intro h
    rw [postFill_Evaluator]
    exact Entry.proj_of_nullSection k.evaluator
        EvaluatorKeys.trigger_array_channel_size EvaluatorKeys.applyTo
        EvaluatorConfig.zero preSeeded.Evaluator
        (fun c => c.TriggerArrayChannelSize) 0 (fun _ _ => rfl) h
  · intro h'
    have hzero : (YamlKeys.applyTo k preSeeded).CircuitBreaker.BackOffInitialInterval = 0 := by
      rcases h' with h | h
      · exact Entry.proj_of_omitted k.circuitBreaker
          CircuitBreakerKeys.back_off_initial_interval CircuitBreakerKeys.applyTo
          CircuitBreakerConfig.zero preSeeded.CircuitBreaker
          (fun c => c.BackOffInitialInterval) 0 (fun _ _ => rfl) h
      · exact Entry.proj_of_nullSection k.circuitBreaker
          CircuitBreakerKeys.back_off_initial_interval CircuitBreakerKeys.applyTo
          CircuitBreakerConfig.zero preSeeded.CircuitBreaker
          (fun c => c.BackOffInitialInterval) 0 (fun _ _ => rfl) h
    rw [postFill_BackOffInitialInterval, if_pos hzero]
    rfl
  · intro h'
    have hzero : (YamlKeys.applyTo k preSeeded).CircuitBreaker.BackOffMaxInterval = 0 := by
      rcases h' with h | h
      · exact Entry.proj_of_omitted k.circuitBreaker
          CircuitBreakerKeys.back_off_max_interval CircuitBreakerKeys.applyTo
          CircuitBreakerConfig.zero preSeeded.CircuitBreaker
          (fun c => c.BackOffMaxInterval) 0 (fun _ _ => rfl) h
      · exact Entry.proj_of_nullSection k.circuitBreaker
          CircuitBreakerKeys.back_off_max_interval CircuitBreakerKeys.applyTo
          CircuitBreakerConfig.zero preSeeded.CircuitBreaker
          (fun c => c.BackOffMaxInterval) 0 (fun _ _ => rfl) h
    rw [postFill_BackOffMaxInterval, if_pos hzero]
    rfl
  · intro h'
    have hzero : (YamlKeys.applyTo k preSeeded).CircuitBreaker.ConsecutiveFailureCount = 0 := by
      rcases h' with h | h
      · exact Entry.proj_of_omitted k.circuitBreaker
          CircuitBreakerKeys.consecutive_failure_count CircuitBreakerKeys.applyTo
          CircuitBreakerConfig.zero preSeeded.CircuitBreaker
          (fun c => c.ConsecutiveFailureCount) 0 (fun _ _ => rfl) h
      · exact Entry.proj_of_nullSection k.circuitBreaker
          CircuitBreakerKeys.consecutive_failure_count CircuitBreakerKeys.applyTo
          CircuitBreakerConfig.zero preSeeded.CircuitBreaker
          (fun c => c.ConsecutiveFailureCount) 0 (fun _ _ => rfl) h
    rw [postFill_ConsecutiveFailureCount, if_pos hzero]

/-- C4, as stated, fails: a document that supplies the logging level `INFO` is loaded with
the level `info`, which is not the explicit value. -/
theorem LoadConfig_explicit_level_not_kept :
    upperCaseLevelDoc.level = some "INFO" ∧
      ∃ conf, LoadConfig id (unmarshalDocument fun _ => (.ok upperCaseLevelDoc : Except String Document))
          [] = .ok conf ∧
        conf.Logging.Level = "info" ∧ conf.Logging.Level ≠ "INFO" :=
  ⟨rfl, _, rfl, by decide, by decide⟩

/-- C4, amended: for every document whose parse supplies an explicit value for a
defaultable key, the returned configuration carries that value, except that the logging
level is carried in lower-cased form and that a CircuitBreaker field whose explicit value
is zero carries the default. -/
theorem LoadConfig_explicit_field_value {ε : Type} (caseTable : Char → Char)
    (parse : List UInt8 → Except ε Document) (bytes : List UInt8) (d : Document)
    (hparse : parse bytes = .ok d) :
    ∃ conf, LoadConfig caseTable (unmarshalDocument parse) bytes = .ok conf ∧
      (∀ v, d.level = some v → conf.Logging.Level = ToLower caseTable v) ∧
      (∀ v, d.port = some v → conf.Server.Port = v) ∧
      (∀ v, d.policy_poller_interval = some v → conf.Aggregator.PolicyPollerInterval = v) ∧
      (∀ v, d.aggregator_execute_interval = some v →
        conf.Aggregator.AggregatorExecuteInterval = v) ∧
      (∀ v, d.save_interval = some v → conf.Aggregator.SaveInterval = v) ∧
      (∀ v, d.metric_poller_count = some v → conf.Aggregator.MetricPollerCount = v) ∧
      (∀ v, d.app_monitor_channel_size = some v → conf.Aggregator.AppMonitorChannelSize = v) ∧
      (∀ v, d.app_metric_channel_size = some v → conf.Aggregator.AppMetricChannelSize = v) ∧
      (∀ v, d.evaluation_manager_execute_interval = some v →
        conf.Evaluator.EvaluationManagerInterval = v) ∧
      (∀ v, d.evaluator_count = some v → conf.Evaluator.EvaluatorCount = v) ∧
      (∀ v, d.trigger_array_channel_size = some v →
        conf.Evaluator.TriggerArrayChannelSize = v) ∧
      (∀ v, d.back_off_initial_interval = some v →
        conf.CircuitBreaker.BackOffInitialInterval = if v = 0 then 5 * Minute else v) ∧
      (∀ v, d.back_off_max_interval = some v →
        conf.CircuitBreaker.BackOffMaxInterval = if v = 0 then 2 * Hour else v) ∧
      (∀ v, d.consecutive_failure_count = some v →
        conf.CircuitBreaker.ConsecutiveFailureCount = if v = 0 then 3 else v) := by
  refine ⟨_, LoadConfig_document caseTable parse bytes d hparse, ?_⟩
  refine ⟨?_, ?_, ?_, ?_, ?_, ?_, ?_, ?_, ?_, ?_, ?_, ?_, ?_, ?_⟩ <;>
    (intro v h
     simp [postFill_Level, postFill_Server, postFill_Aggregator, postFill_Evaluator,
      postFill_ConsecutiveFailureCount, postFill_BackOffInitialInterval, postFill_BackOffMaxInterval,
      Document.applyTo, preSeeded, ToLower_info, DefaultLoggingLevel, DefaultServerPort,
      DefaultPolicyPollerInterval, DefaultAggregatorExecuteInterval, DefaultSaveInterval,
      DefaultMetricPollerCount, DefaultAppMonitorChannelSize, DefaultAppMetricChannelSize,
      DefaultEvaluationExecuteInterval, DefaultEvaluatorCount, DefaultTriggerArrayChannelSize,
      Second, Minute, Hour, h])

/-- Witness for the amended C4: the explicit level `INFO` is carried as `info`. -/
theorem LoadConfig_explicit_field_value_witness :
    ∃ conf, LoadConfig id (unmarshalDocument fun _ => (.ok upperCaseLevelDoc : Except String Document))
        [] = .ok conf ∧ conf.Logging.Level = "info" := by
  obtain ⟨conf, hload, hlevel, -⟩ :=
    LoadConfig_explicit_field_value id (fun _ => (.ok upperCaseLevelDoc : Except String Document))
      [] upperCaseLevelDoc rfl
  exact ⟨conf, hload, hlevel "INFO" rfl⟩

/-- C5: the statements after deserialization set each CircuitBreaker field to its default
(5 minutes, 2 hours, 3) exactly when the deserialized value is zero and leave it unchanged
otherwise; hence no CircuitBreaker field of a configuration returned by `LoadConfig` is
zero, and an explicit `consecutive_failure_count` of 0 yields 3. -/
theorem postFill_circuitBreaker (caseTable : Char → Char) (conf : Config) :
    ((postFill caseTable conf).CircuitBreaker.BackOffInitialInterval =
        if conf.CircuitBreaker.BackOffInitialInterval = 0 then 5 * Minute
        else conf.CircuitBreaker.BackOffInitialInterval) ∧
    ((postFill caseTable conf).CircuitBreaker.BackOffMaxInterval =
        if conf.CircuitBreaker.BackOffMaxInterval = 0 then 2 * Hour
        else conf.CircuitBreaker.BackOffMaxInterval) ∧
    ((postFill caseTable conf).CircuitBreaker.ConsecutiveFailureCount =
        if conf.CircuitBreaker.ConsecutiveFailureCount = 0 then 3
        else conf.CircuitBreaker.ConsecutiveFailureCount) ∧
    (∀ (ε : Type) (unmarshal : List UInt8 → Config → Except ε (Option Config)) (bytes : List UInt8),
      unmarshal bytes preSeeded = .ok (some conf) →
      ∃ r, LoadConfig caseTable unmarshal bytes = .ok r ∧
        r.CircuitBreaker.BackOffInitialInterval ≠ 0 ∧
        r.CircuitBreaker.BackOffMaxInterval ≠ 0 ∧
        r.CircuitBreaker.ConsecutiveFailureCount ≠ 0) ∧
    (∀ (ε : Type) (parse : List UInt8 → Except ε Document) (bytes : List UInt8) (d : Document),
      parse bytes = .ok d → d.consecutive_failure_count = some 0 →
      ∃ r, LoadConfig caseTable (unmarshalDocument parse) bytes = .ok r ∧
        r.CircuitBreaker.ConsecutiveFailureCount = 3) := by
  refine ⟨postFill_BackOffInitialInterval _ _, postFill_BackOffMaxInterval _ _,
    postFill_ConsecutiveFailureCount _ _, ?_, ?_⟩
  · intro ε unmarshal bytes h
    refine ⟨_, LoadConfig_of_ok caseTable unmarshal bytes conf h, ?_, ?_, ?_⟩
    · rw [postFill_BackOffInitialInterval]
      split_ifs with hz
      · decide
      · exact hz
    · rw [postFill_BackOffMaxInterval]
      split_ifs with hz
      · decide
      · exact hz
    · rw [postFill_ConsecutiveFailureCount]
      split_ifs with hz
      · decide
      · exact hz
  · intro ε parse bytes d hparse hzero
    refine ⟨_, LoadConfig_document caseTable parse bytes d hparse, ?_⟩
    rw [postFill_ConsecutiveFailureCount]
    simp [Document.applyTo, hzero]

/-- Witness for C5: a deserialized configuration with backoffs -7 and 0 and threshold 12
keeps -7 and 12 and gets the 2 hour default; a document with an explicit
`consecutive_failure_count` of 0 is loaded with threshold 3. -/
theorem postFill_circuitBreaker_witness :
    (postFill id outOfRangeConfig).CircuitBreaker = ⟨-7, 7200000000000, 12⟩ ∧
    (∃ r, LoadConfig id (fun _ _ => (.ok (some outOfRangeConfig) : Except String (Option Config))) [] = .ok r ∧
      r.CircuitBreaker.BackOffInitialInterval ≠ 0 ∧ r.CircuitBreaker.BackOffMaxInterval ≠ 0 ∧
      r.CircuitBreaker.ConsecutiveFailureCount ≠ 0) ∧
    (∃ r, LoadConfig id (unmarshalDocument fun _ => (.ok zeroFailureCountDoc : Except String Document))
        [] = .ok r ∧ r.CircuitBreaker.ConsecutiveFailureCount = 3) :=
  ⟨by decide,
    (postFill_circuitBreaker id outOfRangeConfig).2.2.2.1 String (fun _ _ => .ok (some outOfRangeConfig))
      [] rfl,
    (postFill_circuitBreaker id outOfRangeConfig).2.2.2.2 String (fun _ => .ok zeroFailureCountDoc)
      [] zeroFailureCountDoc rfl rfl⟩

/-- Witness for the amended C3: a document with `aggregator:` null, `evaluator:` holding
only `evaluator_count: 7` and `circuitBreaker:` null keeps the defaults of the logging
level, the port and the two evaluator keys it leaves out, gets the CircuitBreaker defaults,
and has a zero metric-poller count. -/
theorem LoadConfig_omitted_field_default_witness :
    ∃ conf, LoadConfig id (unmarshalYaml fun _ => (.ok partialDoc : Except String YamlDocument))
        [] = .ok conf ∧
      conf.Logging.Level = "info" ∧ conf.Server.Port = 8080 ∧
      conf.Evaluator.EvaluatorCount = 7 ∧ conf.Evaluator.TriggerArrayChannelSize = 200 ∧
      conf.Evaluator.EvaluationManagerInterval = 40000000000 ∧
      conf.Aggregator.MetricPollerCount = 0 ∧
      conf.CircuitBreaker = ⟨300000000000, 7200000000000, 3⟩ := by
  obtain ⟨conf, hload, hlevel, hport, -, -, -, -, -, -, hinterval, -, htrigger, -, -, -, -, -,
      hpoller, -, -, -, -, -, hinit, hmax, hcount⟩ :=
    LoadConfig_omitted_field_default id
      (fun _ => (.ok partialDoc : Except String YamlDocument)) [] partialDoc rfl (by decide)
  have hconf : conf = postFill id (partialDoc.keys.applyTo preSeeded) := by
    have h2 : LoadConfig id (unmarshalYaml fun _ => (.ok partialDoc : Except String YamlDocument))
        [] = .ok (postFill id (partialDoc.keys.applyTo preSeeded)) := rfl
    rw [hload] at h2
    injection h2
  refine ⟨conf, hload, hlevel rfl, hport rfl, ?_, htrigger rfl, hinterval rfl, hpoller rfl, ?_⟩
  · rw [hconf]
    rfl
  · have h1 := hinit (Or.inr rfl)
    have h2 := hmax (Or.inr rfl)
    have h3 := hcount (Or.inr rfl)
    rw [hconf] at h1 h2 h3 ⊢
    rfl

/-- C6, at the failing input: when the deserializer returns no error and leaves the
pointer `conf` nil, as on the null document, `LoadConfig` dereferences nil at line 114; it
returns neither a configuration nor an error. -/
theorem LoadConfig_nil_dereference {ε : Type} (caseTable : Char → Char)
    (unmarshal : List UInt8 → Config → Except ε (Option Config)) (bytes : List UInt8)
    (hnil : unmarshal bytes preSeeded = .ok none) :
    LoadConfig caseTable unmarshal bytes = .nilDereference ∧
      (∀ conf, LoadConfig caseTable unmarshal bytes ≠ .ok conf) ∧
      (∀ err, LoadConfig caseTable unmarshal bytes ≠ .error err) := by
  rw [LoadConfig_of_nil caseTable unmarshal bytes hnil]
  refine ⟨rfl, ?_, ?_⟩
  · intro conf h
    cases h
  · intro err h
    cases h

/-- Witness for C6: the bytes `null`, parsed as the null document. -/
theorem LoadConfig_nil_dereference_witness :
    YamlDocument.null.applyTo preSeeded = none ∧
      LoadConfig id (unmarshalYaml fun _ => (.ok YamlDocument.null : Except String YamlDocument))
        nullBytes = .nilDereference :=
  ⟨rfl,
    (LoadConfig_nil_dereference id
      (unmarshalYaml fun _ => (.ok YamlDocument.null : Except String YamlDocument))
      nullBytes rfl).1⟩

theorem unicodeToLower_idem (caseTable : Char → Char)
    (htable : ∀ r : Char, 127 < r.toNat →
      unicodeToLower caseTable (caseTable r) = caseTable r) (r : Char) :
    unicodeToLower caseTable (unicodeToLower caseTable r) = unicodeToLower caseTable r := by
  by_cases hascii : r.toNat ≤ 127
  · by_cases hup : isUpperASCII r = true
    · have h1 : unicodeToLower caseTable r = Char.ofNat (r.toNat + 32) := by
        simp [unicodeToLower, hascii, hup]
      rw [h1]
      simp only [isUpperASCII, decide_eq_true_eq] at hup
      obtain ⟨hlo, hhi⟩ := hup
      generalize r.toNat = n at hlo hhi
      interval_cases n <;> rfl
    · have h1 : unicodeToLower caseTable r = r := by
        simp [unicodeToLower, hascii, hup]
      rw [h1, h1]
  · have h1 : unicodeToLower caseTable r = caseTable r := by
      simp [unicodeToLower, hascii]
    rw [h1]
    exact htable r (by omega)

theorem ToLower_idem (caseTable : Char → Char)
    (htable : ∀ r : Char, 127 < r.toNat →
      unicodeToLower caseTable (caseTable r) = caseTable r) (s : String) :
    ToLower caseTable (ToLower caseTable s) = ToLower caseTable s := by
  simp only [ToLower, List.map_map]
  congr 1
  apply List.map_congr_left
  intro a _
  exact unicodeToLower_idem caseTable htable a

/-- The function `unicode.ToLower` spelled out rune by rune. -/
theorem unicodeToLower_eq (caseTable : Char → Char) (ch : Char) :
    unicodeToLower caseTable ch =
      if 65 ≤ ch.toNat ∧ ch.toNat ≤ 90 then Char.ofNat (ch.toNat + 32)
      else if ch.toNat ≤ 127 then ch else caseTable ch := by
  unfold unicodeToLower isUpperASCII
  by_cases hascii : ch.toNat ≤ 127
  · by_cases hup : 65 ≤ ch.toNat ∧ ch.toNat ≤ 90
    · simp [hascii, hup]
    · simp [hascii, hup]
  · have hup : ¬ (65 ≤ ch.toNat ∧ ch.toNat ≤ 90) := by omega
    simp [hascii, hup]

/-- A rune that `unicode.ToLower` leaves alone is not one of `A`-`Z`. -/
theorem isUpperASCII_of_fixed (caseTable : Char → Char) (ch : Char)
    (h : unicodeToLower caseTable ch = ch) : isUpperASCII ch = false := by
  by_contra hup
  have hup : isUpperASCII ch = true := by simpa using hup
  have hrange := hup
  simp only [isUpperASCII, decide_eq_true_eq] at hrange
  have hlow : unicodeToLower caseTable ch = Char.ofNat (ch.toNat + 32) := by
    simp [unicodeToLower, hup, show ch.toNat ≤ 127 by omega]
  rw [hlow] at h
  have hnat := congrArg Char.toNat h
  obtain ⟨hlo, hhi⟩ := hrange
  generalize ch.toNat = n at hlo hhi hnat
  interval_cases n <;> exact absurd hnat (by decide)

/-- C7: for every input on which `LoadConfig` returns a configuration, the logging level
returned is `strings.ToLower` of the deserialized level: it has the same length and
carries at each position the rune of the deserialized level with `A`-`Z` replaced by
`a`-`z`, other ASCII runes kept and runes beyond ASCII mapped by the case table of the
library; it contains no rune that lower-casing changes, in particular none of `A`-`Z`,
given that the case table yields only runes that `unicode.ToLower` leaves alone. -/
theorem LoadConfig_level_lower_case {ε : Type} (caseTable : Char → Char)
    (htable : ∀ r : Char, 127 < r.toNat →
      unicodeToLower caseTable (caseTable r) = caseTable r)
    (unmarshal : List UInt8 → Config → Except ε (Option Config)) (bytes : List UInt8)
    (conf : Config) (hdes : unmarshal bytes preSeeded = .ok (some conf)) :
    ∃ r, LoadConfig caseTable unmarshal bytes = .ok r ∧
      r.Logging.Level = ToLower caseTable conf.Logging.Level ∧
      r.Logging.Level.length = conf.Logging.Level.length ∧
      (∀ i ch, conf.Logging.Level.data.get? i = some ch →
        r.Logging.Level.data.get? i =
          some (if 65 ≤ ch.toNat ∧ ch.toNat ≤ 90 then Char.ofNat (ch.toNat + 32)
            else if ch.toNat ≤ 127 then ch else caseTable ch)) ∧
      (∀ ch ∈ r.Logging.Level.data, unicodeToLower caseTable ch = ch) ∧
      (∀ ch ∈ r.Logging.Level.data, isUpperASCII ch = false) := by
  have hdata : (postFill caseTable conf).Logging.Level.data =
      conf.Logging.Level.data.map (unicodeToLower caseTable) := by
    rw [postFill_Level]
    rfl
  have hfixed : ∀ ch ∈ (postFill caseTable conf).Logging.Level.data,
      unicodeToLower caseTable ch = ch := by
    intro ch hch
    rw [hdata, List.mem_map] at hch
    obtain ⟨a, -, rfl⟩ := hch
    exact unicodeToLower_idem caseTable htable a
  refine ⟨_, LoadConfig_of_ok caseTable unmarshal bytes conf hdes, postFill_Level _ _, ?_, ?_,
    hfixed, fun ch hch => isUpperASCII_of_fixed caseTable ch (hfixed ch hch)⟩
  · simp only [String.length, hdata, List.length_map]
  · intro i ch hget
    rw [hdata, List.get?_eq_getElem?, List.getElem?_map, ← List.get?_eq_getElem?, hget]
    simp only [Option.map_some', unicodeToLower_eq]

/-- Witness for C7: the level `Debug-Mode` of the document is returned as `debug-mode`. -/
theorem LoadConfig_level_lower_case_witness :
    ∃ r, LoadConfig id (unmarshalYaml fun _ => (.ok mixedCaseLevelDoc : Except String YamlDocument))
        [] = .ok r ∧
      r.Logging.Level = "debug-mode" ∧ r.Logging.Level.length = 10 ∧
      r.Logging.Level.data.get? 0 = some (Char.ofNat 100) ∧
      ∀ ch ∈ r.Logging.Level.data, isUpperASCII ch = false := by
  obtain ⟨r, hload, hlevel, hlen, hpos, -, hupper⟩ :=
    LoadConfig_level_lower_case id (fun r hr => by simp [unicodeToLower]; omega)
      (unmarshalYaml fun _ => (.ok mixedCaseLevelDoc : Except String YamlDocument)) []
      (mixedCaseLevelDoc.keys.applyTo preSeeded) rfl
  exact ⟨r, hload, hlevel.trans (by decide), hlen.trans (by decide),
    (hpos 0 (Char.ofNat 68) rfl).trans (by decide), hupper⟩

/-- C10: loading the empty document succeeds with the configuration that has every default
applied and nothing else set, and `Validate` rejects that configuration with the
policy-DB-URL message. -/
theorem LoadConfig_empty_document {ε : Type} (caseTable : Char → Char)
    (parse : List UInt8 → Except ε Document) (bytes : List UInt8)
    (hparse : parse bytes = .ok Document.empty) :
    LoadConfig caseTable (unmarshalDocument parse) bytes = .ok allDefaults ∧
      Validate allDefaults = .error "Configuration error: Policy DB url is empty" :=
  ⟨LoadConfig_document caseTable parse bytes Document.empty hparse, rfl⟩

/-- Witness for C10: the empty byte sequence, parsed as the document without keys. -/
theorem LoadConfig_empty_document_witness :
    LoadConfig id (unmarshalDocument fun _ => (.ok Document.empty : Except String Document)) [] =
        .ok allDefaults ∧
      Validate allDefaults = .error "Configuration error: Policy DB url is empty" :=
  LoadConfig_empty_document id (fun _ => .ok Document.empty) [] rfl

/-! ## Further theorems about Validate -/

theorem ruleMessage_injective (i j : Nat) (hi : i < 16) (hj : j < 16)
    (h : ruleMessage i = ruleMessage j) : i = j := by
  interval_cases i <;> interval_cases j <;> first | rfl | (exact absurd h (by decide))

/-- An error of `Validate` is the message of the first violated rule. -/
theorem first_violation_of_Validate_eq_error (c : Config) (msg : String)
    (h : Validate c = .error msg) :
    ∃ i, i < 16 ∧ msg = ruleMessage i ∧ specRuleHolds i c = false ∧
      ∀ j, j < i → specRuleHolds j c = true := by
  have hex : ∃ j, j < 16 ∧ specRuleHolds j c = false := by
    by_contra hne
    push_neg at hne
    have hok := Validate_eq_ok_of_rules c (fun j hj => by simpa using hne j hj)
    rw [h] at hok
    cases hok
  obtain ⟨hlt, hv⟩ := Nat.find_spec hex
  have hprev : ∀ j, j < Nat.find hex → specRuleHolds j c = true := fun j hj => by
    have hmin := Nat.find_min hex hj
    simp only [not_and] at hmin
    simpa using hmin (lt_trans hj hlt)
  have herr := Validate_eq_error_of_first c (Nat.find hex) hlt hv hprev
  rw [h] at herr
  exact ⟨Nat.find hex, hlt, by injection herr, hv, hprev⟩

/-- C11: the compile-time defaults satisfy rules 5-13: a configuration whose Aggregator and
Evaluator fields equal their defaults, whose four URLs are non-empty, whose window fields
lie in [60, 3600] and whose node index is in range passes `Validate`. -/
theorem Validate_ok_of_defaults (c : Config)
    (hagg : c.Aggregator =
      { MetricPollerCount := DefaultMetricPollerCount
        AppMonitorChannelSize := DefaultAppMonitorChannelSize
        AppMetricChannelSize := DefaultAppMetricChannelSize
        AggregatorExecuteInterval := DefaultAggregatorExecuteInterval
        PolicyPollerInterval := DefaultPolicyPollerInterval
        SaveInterval := DefaultSaveInterval })
    (heval : c.Evaluator =
      { EvaluatorCount := DefaultEvaluatorCount
        TriggerArrayChannelSize := DefaultTriggerArrayChannelSize
        EvaluationManagerInterval := DefaultEvaluationExecuteInterval })
    (hurls : c.DB.PolicyDB.Url ≠ "" ∧ c.DB.AppMetricDB.Url ≠ "" ∧
      c.ScalingEngine.ScalingEngineUrl ≠ "" ∧ c.MetricCollector.MetricCollectorUrl ≠ "")
    (hbreach : 60 ≤ c.DefaultBreachDurationSecs ∧ c.DefaultBreachDurationSecs ≤ 3600)
    (hstat : 60 ≤ c.DefaultStatWindowSecs ∧ c.DefaultStatWindowSecs ≤ 3600)
    (hidx : 0 ≤ c.Server.NodeIndex ∧ c.Server.NodeIndex < (c.Server.NodeAddrs.length : Int)) :
    (∀ j, 4 ≤ j → j < 13 → specRuleHolds j c = true) ∧ Validate c = .ok () := by
  have hrules : ∀ j, j < 16 → specRuleHolds j c = true := by
    intro j hj
    obtain ⟨u0, u1, u2, u3⟩ := hurls
    interval_cases j <;>
      simp [specRuleHolds, hagg, heval, DefaultMetricPollerCount, DefaultAppMonitorChannelSize,
        DefaultAppMetricChannelSize, DefaultAggregatorExecuteInterval,
        DefaultPolicyPollerInterval, DefaultSaveInterval, DefaultEvaluatorCount,
        DefaultTriggerArrayChannelSize, DefaultEvaluationExecuteInterval, Second, *]
  exact ⟨fun j _ hj => hrules j (by omega), Validate_eq_ok_of_rules c hrules⟩

/-- Witness for C11: the second example scenario, loaded and validated. -/
theorem Validate_ok_of_defaults_witness :
    ∃ conf, LoadConfig id (unmarshalDocument fun _ => (.ok scenarioTwoDoc : Except String Document))
        [] = .ok conf ∧ Validate conf = .ok () :=
  ⟨postFill id (scenarioTwoDoc.applyTo preSeeded), rfl,
    (Validate_ok_of_defaults (postFill id (scenarioTwoDoc.applyTo preSeeded)) rfl rfl
      (by decide) (by decide) (by decide) (by decide)).2⟩

/-- C12: every error returned by `Validate` is one of the sixteen fixed messages, namely
that of the first violated rule, and the sixteen messages are pairwise distinct, so the
message determines the rule. -/
theorem Validate_error_is_rule_message (c : Config) :
    (∀ msg, Validate c = .error msg →
      ∃ i, i < 16 ∧ msg = ruleMessage i ∧ specRuleHolds i c = false ∧
        ∀ k, k < 16 → msg = ruleMessage k → k = i) ∧
    (∀ i j, i < 16 → j < 16 → ruleMessage i = ruleMessage j → i = j) := by
  refine ⟨fun msg h => ?_, fun i j hi hj h => ruleMessage_injective i j hi hj h⟩
  obtain ⟨i, hi, hmsg, hviol, -⟩ := first_violation_of_Validate_eq_error c msg h
  exact ⟨i, hi, hmsg, hviol, fun k hk hk2 => ruleMessage_injective k i hk hi (hk2 ▸ hmsg)⟩

/-- Witness for C12: the error of a configuration with node index 5 of two addresses is
the message of rule 16 and of no other rule. -/
theorem Validate_error_is_rule_message_witness :
    Validate nodeIndexFive = .error "Configuration error: node_index out of range" ∧
      ∃ i, i < 16 ∧ "Configuration error: node_index out of range" = ruleMessage i ∧
        specRuleHolds i nodeIndexFive = false ∧
        ∀ k, k < 16 → "Configuration error: node_index out of range" = ruleMessage k → k = i :=
  ⟨rfl, (Validate_error_is_rule_message nodeIndexFive).1 _ rfl⟩

/-- Every return path of the state-passing reading of `Validate` carries the error of
`Validate` and the configuration it was called on. -/
theorem runValidate_eq (c : Config) : runValidate c = (Validate c, c) := by
  unfold runValidate Validate
  by_cases h0 : c.DB.PolicyDB.Url = ""
  · rw [if_pos h0, if_pos h0]
  rw [if_neg h0, if_neg h0]
  by_cases h1 : c.DB.AppMetricDB.Url = ""
  · rw [if_pos h1, if_pos h1]
  rw [if_neg h1, if_neg h1]
  by_cases h2 : c.ScalingEngine.ScalingEngineUrl = ""
  · rw [if_pos h2, if_pos h2]
  rw [if_neg h2, if_neg h2]
  by_cases h3 : c.MetricCollector.MetricCollectorUrl = ""
  · rw [if_pos h3, if_pos h3]
  rw [if_neg h3, if_neg h3]
  by_cases h4 : c.Aggregator.AggregatorExecuteInterval ≤ 0
  · rw [if_pos h4, if_pos h4]
  rw [if_neg h4, if_neg h4]
  by_cases h5 : c.Aggregator.PolicyPollerInterval ≤ 0
  · rw [if_pos h5, if_pos h5]
  rw [if_neg h5, if_neg h5]
  by_cases h6 : c.Aggregator.SaveInterval ≤ 0
  · rw [if_pos h6, if_pos h6]
  rw [if_neg h6, if_neg h6]
  by_cases h7 : c.Aggregator.MetricPollerCount ≤ 0
  · rw [if_pos h7, if_pos h7]
  rw [if_neg h7, if_neg h7]
  by_cases h8 : c.Aggregator.AppMonitorChannelSize ≤ 0
  · rw [if_pos h8, if_pos h8]
  rw [if_neg h8, if_neg h8]
  by_cases h9 : c.Aggregator.AppMetricChannelSize ≤ 0
  · rw [if_pos h9, if_pos h9]
  rw [if_neg h9, if_neg h9]
  by_cases h10 : c.Evaluator.EvaluationManagerInterval ≤ 0
  · rw [if_pos h10, if_pos h10]
  rw [if_neg h10, if_neg h10]
  by_cases h11 : c.Evaluator.EvaluatorCount ≤ 0
  · rw [if_pos h11, if_pos h11]
  rw [if_neg h11, if_neg h11]
  by_cases h12 : c.Evaluator.TriggerArrayChannelSize ≤ 0
  · rw [if_pos h12, if_pos h12]
  rw [if_neg h12, if_neg h12]
  by_cases h13 : c.DefaultBreachDurationSecs < 60 ∨ c.DefaultBreachDurationSecs > 3600
  · rw [if_pos h13, if_pos h13]
  rw [if_neg h13, if_neg h13]
  by_cases h14 : c.DefaultStatWindowSecs < 60 ∨ c.DefaultStatWindowSecs > 3600
  · rw [if_pos h14, if_pos h14]
  rw [if_neg h14, if_neg h14]
  by_cases h15 : c.Server.NodeIndex ≥ (c.Server.NodeAddrs.length : Int) ∨ c.Server.NodeIndex < 0
  · rw [if_pos h15, if_pos h15]
  rw [if_neg h15, if_neg h15]

/-- C13: `Validate` leaves the configuration unchanged on every return path, its result
is a function of the configuration, and a second call on the same configuration returns
what the first call returned. -/
theorem runValidate_pure (c : Config) :
    (runValidate c).2 = c ∧ (runValidate c).1 = Validate c ∧
      (runValidate (runValidate c).2).1 = (runValidate c).1 ∧
      (runValidate (runValidate c).2).2 = c := by
  have h2 : (runValidate c).2 = c := by rw [runValidate_eq]
  have h1 : (runValidate c).1 = Validate c := by rw [runValidate_eq]
  refine ⟨h2, h1, ?_, ?_⟩
  · rw [h2]
  · rw [h2, h2]

/-- C15: two configurations that agree on the four URLs, the Aggregator and Evaluator
fields, both window fields, the node index and the number of node addresses get the same
result from `Validate`, whatever their logging level, port, TLS material, pool parameters
and CircuitBreaker fields. -/
theorem Validate_eq_of_agree (c₁ c₂ : Config)
    (hpolicy : c₁.DB.PolicyDB.Url = c₂.DB.PolicyDB.Url)
    (hmetric : c₁.DB.AppMetricDB.Url = c₂.DB.AppMetricDB.Url)
    (hengine : c₁.ScalingEngine.ScalingEngineUrl = c₂.ScalingEngine.ScalingEngineUrl)
    (hcollector : c₁.MetricCollector.MetricCollectorUrl = c₂.MetricCollector.MetricCollectorUrl)
    (hagg : c₁.Aggregator = c₂.Aggregator) (heval : c₁.Evaluator = c₂.Evaluator)
    (hstat : c₁.DefaultStatWindowSecs = c₂.DefaultStatWindowSecs)
    (hbreach : c₁.DefaultBreachDurationSecs = c₂.DefaultBreachDurationSecs)
    (hidx : c₁.Server.NodeIndex = c₂.Server.NodeIndex)
    (hlen : c₁.Server.NodeAddrs.length = c₂.Server.NodeAddrs.length) :
    Validate c₁ = Validate c₂ := by
  simp only [Validate, hpolicy, hmetric, hengine, hcollector, hagg, heval, hstat, hbreach, hidx,
    hlen]

/-- Witness for C15: a configuration with port 0, negative CircuitBreaker values and other
TLS material, pool parameters and logging level gets the result of the sample
configuration, which is success. -/
theorem Validate_eq_of_agree_witness :
    Validate negativeBreakerConfig = Validate goodConfig ∧
      Validate negativeBreakerConfig = .ok () ∧
      negativeBreakerConfig.Server.Port = 0 ∧
      negativeBreakerConfig.CircuitBreaker.ConsecutiveFailureCount < 0 :=
  ⟨Validate_eq_of_agree negativeBreakerConfig goodConfig rfl rfl rfl rfl rfl rfl rfl rfl rfl rfl,
    rfl, rfl, by decide⟩

/-- C17: when `Validate` succeeds the list of node addresses is non-empty and `node_index`
is a valid index into it; a configuration with an empty list of node addresses is
rejected. -/
theorem Validate_ok_node_index_in_bounds (c : Config) :
    (Validate c = .ok () →
      c.Server.NodeAddrs ≠ [] ∧ 0 ≤ c.Server.NodeIndex ∧
        c.Server.NodeIndex < (c.Server.NodeAddrs.length : Int) ∧
        ∃ addr, c.Server.NodeAddrs.get? c.Server.NodeIndex.toNat = some addr) ∧
    (c.Server.NodeAddrs = [] → ∃ msg, Validate c = .error msg) := by
  have hok : Validate c = .ok () →
      0 ≤ c.Server.NodeIndex ∧ c.Server.NodeIndex < (c.Server.NodeAddrs.length : Int) := by
    intro h
    have h15 := rules_of_Validate_eq_ok c h 15 (by decide)
    simpa [specRuleHolds] using h15
  constructor
  · intro h
    obtain ⟨h0, hlt⟩ := hok h
    have hnat : c.Server.NodeIndex.toNat < c.Server.NodeAddrs.length := by omega
    refine ⟨?_, h0, hlt, ⟨c.Server.NodeAddrs.get ⟨_, hnat⟩, List.get?_eq_get hnat⟩⟩
    intro hnil
    rw [hnil] at hnat
    simp at hnat
  · intro hnil
    cases h : Validate c with
    | error msg => exact ⟨msg, rfl⟩
    | ok u =>
      obtain ⟨h0, hlt⟩ := hok h
      rw [hnil] at hlt
      simp at hlt
      omega

/-- Witness for C17: the sample configuration passes and its node index 1 selects the
address `b`; the configuration loaded from the empty document, with no node address and
node index 0, is rejected. -/
theorem Validate_ok_node_index_in_bounds_witness :
    (goodConfig.Server.NodeAddrs ≠ [] ∧ 0 ≤ goodConfig.Server.NodeIndex ∧
      goodConfig.Server.NodeIndex < (goodConfig.Server.NodeAddrs.length : Int) ∧
      ∃ addr, goodConfig.Server.NodeAddrs.get? goodConfig.Server.NodeIndex.toNat = some addr) ∧
    (allDefaults.Server.NodeAddrs = [] ∧ allDefaults.Server.NodeIndex = 0 ∧
      ∃ msg, Validate allDefaults = .error msg) :=
  ⟨(Validate_ok_node_index_in_bounds goodConfig).1 rfl,
    rfl, rfl, (Validate_ok_node_index_in_bounds allDefaults).2 rfl⟩

/-! ## Further theorems about the statements after deserialization -/

theorem postFill_DB (caseTable : Char → Char) (conf : Config) :
    (postFill caseTable conf).DB = conf.DB := by
  simp only [postFill]
  split_ifs <;> rfl

theorem postFill_ScalingEngine (caseTable : Char → Char) (conf : Config) :
    (postFill caseTable conf).ScalingEngine = conf.ScalingEngine := by
  simp only [postFill]
  split_ifs <;> rfl

theorem postFill_MetricCollector (caseTable : Char → Char) (conf : Config) :
    (postFill caseTable conf).MetricCollector = conf.MetricCollector := by
  simp only [postFill]
  split_ifs <;> rfl

theorem postFill_DefaultStatWindowSecs (caseTable : Char → Char) (conf : Config) :
    (postFill caseTable conf).DefaultStatWindowSecs = conf.DefaultStatWindowSecs := by
  simp only [postFill]
  split_ifs <;> rfl

theorem postFill_DefaultBreachDurationSecs (caseTable : Char → Char) (conf : Config) :
    (postFill caseTable conf).DefaultBreachDurationSecs = conf.DefaultBreachDurationSecs := by
  simp only [postFill]
  split_ifs <;> rfl

/-- The statements after deserialization change nothing in a configuration whose logging
level is already lower-cased and whose CircuitBreaker fields are all non-zero. -/
theorem postFill_eq_self (caseTable : Char → Char) (conf : Config)
    (hlevel : ToLower caseTable conf.Logging.Level = conf.Logging.Level)
    (hcount : conf.CircuitBreaker.ConsecutiveFailureCount ≠ 0)
    (hinit : conf.CircuitBreaker.BackOffInitialInterval ≠ 0)
    (hmax : conf.CircuitBreaker.BackOffMaxInterval ≠ 0) :
    postFill caseTable conf = conf := by
  simp only [postFill, hlevel]
  rw [if_neg hcount, if_neg hinit, if_neg hmax]

/-- C14: the statements after deserialization change at most the logging level and the
three CircuitBreaker fields: Server, DB, Aggregator, Evaluator, ScalingEngine,
MetricCollector and both window fields of the returned configuration are the
deserialized ones. -/
theorem postFill_frame (caseTable : Char → Char) (conf : Config) :
    ((postFill caseTable conf).Server = conf.Server ∧
      (postFill caseTable conf).DB = conf.DB ∧
      (postFill caseTable conf).Aggregator = conf.Aggregator ∧
      (postFill caseTable conf).Evaluator = conf.Evaluator ∧
      (postFill caseTable conf).ScalingEngine = conf.ScalingEngine ∧
      (postFill caseTable conf).MetricCollector = conf.MetricCollector ∧
      (postFill caseTable conf).DefaultStatWindowSecs = conf.DefaultStatWindowSecs ∧
      (postFill caseTable conf).DefaultBreachDurationSecs = conf.DefaultBreachDurationSecs) ∧
    (∀ (ε : Type) (unmarshal : List UInt8 → Config → Except ε (Option Config)) (bytes : List UInt8),
      unmarshal bytes preSeeded = .ok (some conf) →
      ∃ r, LoadConfig caseTable unmarshal bytes = .ok r ∧
        r.Server = conf.Server ∧ r.DB = conf.DB ∧ r.Aggregator = conf.Aggregator ∧
        r.Evaluator = conf.Evaluator ∧ r.ScalingEngine = conf.ScalingEngine ∧
        r.MetricCollector = conf.MetricCollector ∧
        r.DefaultStatWindowSecs = conf.DefaultStatWindowSecs ∧
        r.DefaultBreachDurationSecs = conf.DefaultBreachDurationSecs) := by
  have hframe := And.intro (postFill_Server caseTable conf)
    (And.intro (postFill_DB caseTable conf)
    (And.intro (postFill_Aggregator caseTable conf)
    (And.intro (postFill_Evaluator caseTable conf)
    (And.intro (postFill_ScalingEngine caseTable conf)
    (And.intro (postFill_MetricCollector caseTable conf)
    (And.intro (postFill_DefaultStatWindowSecs caseTable conf)
      (postFill_DefaultBreachDurationSecs caseTable conf)))))))
  exact ⟨hframe, fun ε unmarshal bytes h =>
    ⟨_, LoadConfig_of_ok caseTable unmarshal bytes conf h, hframe⟩⟩

/-- Witness for C14: a deserialized configuration with an upper-case level and a zero
backoff is returned with these two changed and the other sections as deserialized. -/
theorem postFill_frame_witness :
    ∃ r, LoadConfig id (fun _ _ => (.ok (some outOfRangeConfig) : Except String (Option Config))) [] = .ok r ∧
      r.Server = outOfRangeConfig.Server ∧ r.DB = outOfRangeConfig.DB ∧
      r.Aggregator = outOfRangeConfig.Aggregator ∧ r.Evaluator = outOfRangeConfig.Evaluator ∧
      r.ScalingEngine = outOfRangeConfig.ScalingEngine ∧
      r.MetricCollector = outOfRangeConfig.MetricCollector ∧
      r.DefaultStatWindowSecs = outOfRangeConfig.DefaultStatWindowSecs ∧
      r.DefaultBreachDurationSecs = outOfRangeConfig.DefaultBreachDurationSecs :=
  (postFill_frame id outOfRangeConfig).2 String (fun _ _ => .ok (some outOfRangeConfig)) [] rfl

/-- C16: lower-casing the logging level and filling zero CircuitBreaker fields is
idempotent: applied to a configuration it produced, it returns that configuration, given
that the case table of the library maps every rune beyond ASCII to a rune that
`unicode.ToLower` leaves alone. -/
theorem postFill_idempotent (caseTable : Char → Char)
    (htable : ∀ r : Char, 127 < r.toNat →
      unicodeToLower caseTable (caseTable r) = caseTable r) (conf : Config) :
    postFill caseTable (postFill caseTable conf) = postFill caseTable conf := by
  apply postFill_eq_self
  · rw [postFill_Level]
    exact ToLower_idem caseTable htable _
  · rw [postFill_ConsecutiveFailureCount]
    split_ifs with hz
    · decide
    · exact hz
  · rw [postFill_BackOffInitialInterval]
    split_ifs with hz
    · decide
    · exact hz
  · rw [postFill_BackOffMaxInterval]
    split_ifs with hz
    · decide
    · exact hz

/-- Witness for C16: the step changes the configuration with level `DEBUG` and a zero
backoff, and changes nothing when applied again. -/
theorem postFill_idempotent_witness :
    postFill id outOfRangeConfig ≠ outOfRangeConfig ∧
      postFill id (postFill id outOfRangeConfig) = postFill id outOfRangeConfig :=
  ⟨by decide,
    postFill_idempotent id (fun r hr => by simp [unicodeToLower]; omega) outOfRangeConfig⟩

end EventGenerator
